import Mathlib

/-
Shallow embedding of the contravis core (src/contravis) in Lean 4 and a
verification of its specification: the data model (types.py), the geometric
generators (interpolation.py), world helpers (world.py), the builtin figures
(figures/builtin/*.py together with the shared figure machinery in
figures/base.py), and the orchestration pipeline (pipeline.py).

Modelling conventions, used consistently below:
  - Python floats are modelled as real numbers.
  - Python dicts keyed by the four dancers hold all four dancers in every
    structure the core builds, so they are modelled as total functions from
    DancerID; `DancerState.copy()` / `WorldState.copy()` become the identity
    under value semantics.
  - A raised ValueError is modelled by an Option-valued function (none);
    `float("inf")` as the initial best score of a minimising fold is
    modelled by an `Option` accumulator that `none`-initialises.
  - In-place dict updates translate to functional updates whose last write
    wins in the same order as the Python statements.
-/

noncomputable section

open Real

/-- The four fixed dancer identities from types.py. -/
inductive DancerID : Type
  | UP_LARK
  | UP_ROBIN
  | DOWN_LARK
  | DOWN_ROBIN
  deriving DecidableEq, Repr, Inhabited

/-- DancerID.is_lark from types.py: self in (UP_LARK, DOWN_LARK). -/
def DancerID.is_lark : DancerID → Bool
  | DancerID.UP_LARK => true
  | DancerID.DOWN_LARK => true
  | _ => false

/-- Hand enum from types.py. -/
inductive Hand : Type
  | LEFT
  | RIGHT
  deriving DecidableEq, Repr, Inhabited

/-- Formation enum from types.py. -/
inductive Formation : Type
  | IMPROPER
  | BECKETT
  deriving DecidableEq, Repr, Inhabited

/-- DancerState from types.py: position, facing in degrees, optional velocity. -/
structure DancerState where
  x : ℝ
  y : ℝ
  facing : ℝ
  vx : ℝ := 0
  vy : ℝ := 0

instance : Inhabited DancerState := ⟨⟨0, 0, 0, 0, 0⟩⟩

/-- HandConnection from types.py. -/
structure HandConnection where
  dancer_a : DancerID
  hand_a : Hand
  dancer_b : DancerID
  hand_b : Hand
  deriving DecidableEq

/-- WorldState from types.py; the dancer dict always holds all four dancers,
so it is modelled as a total function. -/
structure WorldState where
  beat : ℝ
  dancers : DancerID → DancerState
  hands : List HandConnection := []

/-- Keyframe from types.py. -/
structure Keyframe where
  beat : ℝ
  dancers : DancerID → DancerState
  hands : List HandConnection := []
  annotation : String := ""

instance : Inhabited Keyframe := ⟨{ beat := 0, dancers := fun _ => default }⟩

/-- Model of the untyped `params: dict[str, Any]` of a FigureCall: the keys
read by the embedded figures, each optional (absent key = none). -/
structure Params where
  target_facing : Option ℝ := none
  end_center : Option (ℝ × ℝ) := none
  revolutions : Option ℝ := none
  turns : Option ℝ := none
  step_distance : Option ℝ := none

/-- FigureCall from types.py. -/
structure FigureCall where
  name : String
  beat_start : ℝ
  beat_end : ℝ
  participants : List String
  params : Params := {}
  raw_text : String := ""

instance : Inhabited FigureCall := ⟨{ name := "", beat_start := 0, beat_end := 0, participants := [] }⟩

/-- FigureContext from figures/base.py. -/
structure FigureContext where
  call : FigureCall
  start_state : WorldState
  participants : List DancerID
  beats_per_frame : ℝ := 0.25

def FigureContext.beat_start (ctx : FigureContext) : ℝ := ctx.call.beat_start

def FigureContext.beat_end (ctx : FigureContext) : ℝ := ctx.call.beat_end

def FigureContext.duration (ctx : FigureContext) : ℝ := ctx.call.beat_end - ctx.call.beat_start

def FigureContext.params (ctx : FigureContext) : Params := ctx.call.params

/-- FigureResult from types.py. -/
structure FigureResult where
  keyframes : List Keyframe
  end_state : WorldState
  warnings : List String := []

/-- Python float modulo `x % m`: the result carries the sign of the divisor. -/
def pymod (x m : ℝ) : ℝ := x - m * ⌊x / m⌋

/-- math.hypot. -/
def hypot (x y : ℝ) : ℝ := Real.sqrt (x ^ 2 + y ^ 2)

/-- math.atan2(y, x): the angle of the point (x, y), realised as the complex
argument, with atan2 0 0 = 0 exactly as in Python. -/
def atan2 (y x : ℝ) : ℝ := Complex.arg ⟨x, y⟩

/-- math.degrees. -/
def degrees (r : ℝ) : ℝ := r * (180 / π)

/-- math.radians. -/
def radians (d : ℝ) : ℝ := d * (π / 180)

/-- Cosine ease-in-out from interpolation.py. -/
def _ease_in_out (t : ℝ) : ℝ := (1 - Real.cos (t * π)) / 2

/-- Linear interpolation helper from interpolation.py. -/
def _lerp (a b t : ℝ) : ℝ := a + (b - a) * t

/-- Python round() to an integer: round-half-to-even (banker's rounding). -/
def pyround (x : ℝ) : ℤ :=
  if Int.fract x = 1 / 2 then (if Even ⌊x⌋ then ⌊x⌋ else ⌊x⌋ + 1) else round x

/-- round(beat, 6), used by merge_keyframe_lists to key and deduplicate
near-identical beats (idealised over the reals). -/
def round6 (x : ℝ) : ℝ := (pyround (x * 1000000) : ℝ) / 1000000

/-- max(1, int((beat_end - beat_start) / beats_per_frame)) as computed by all
three generators.  Python int() truncates toward zero; composed with max 1
this agrees with the floor/toNat form for every input sign. -/
def n_frames (beat_start beat_end beats_per_frame : ℝ) : ℕ :=
  max 1 (⌊(beat_end - beat_start) / beats_per_frame⌋.toNat)

lemma n_frames_pos (b0 b1 d : ℝ) : 0 < n_frames b0 b1 d := by
  simp [n_frames]

lemma abs_mk_eq_hypot (b a : ℝ) : Complex.abs ⟨b, a⟩ = hypot a b := by
  rw [Complex.abs_apply, Complex.normSq_mk, hypot]
  ring_nf

lemma hypot_nonneg (x y : ℝ) : 0 ≤ hypot x y := Real.sqrt_nonneg _

lemma hypot_eq_zero_iff (x y : ℝ) : hypot x y = 0 ↔ x = 0 ∧ y = 0 := by
  constructor
  · intro h
    have hx : x ^ 2 + y ^ 2 = 0 := by
      have h0 : 0 ≤ x ^ 2 + y ^ 2 := by positivity
      rcases lt_or_eq_of_le h0 with hlt | heq
      · exact absurd h (by simp [hypot]; positivity)
      · exact heq.symm
    constructor
    · nlinarith [sq_nonneg x, sq_nonneg y]
    · nlinarith [sq_nonneg x, sq_nonneg y]
  · rintro ⟨hx, hy⟩
    simp [hypot, hx, hy]

/-- r·sin(atan2 a b) = a where r = hypot a b: the reconstruction identity
behind the generators' endpoint continuity. -/
lemma hypot_mul_sin_atan2 (a b : ℝ) : hypot a b * Real.sin (atan2 a b) = a := by
  rw [atan2, Complex.sin_arg, show (Complex.mk b a).im = a from rfl, abs_mk_eq_hypot]
  by_cases hz : hypot a b = 0
  · rcases (hypot_eq_zero_iff a b).mp hz with ⟨ha, _⟩
    simp [hz, ha]
  · field_simp

/-- r·cos(atan2 a b) = b where r = hypot a b. -/
lemma hypot_mul_cos_atan2 (a b : ℝ) : hypot a b * Real.cos (atan2 a b) = b := by
  by_cases hz : (⟨b, a⟩ : ℂ) = 0
  · have hb : b = 0 := congrArg Complex.re hz
    have ha : a = 0 := congrArg Complex.im hz
    subst ha
    subst hb
    norm_num [hypot]
  · have h := Complex.cos_arg hz
    rw [atan2, h, show (Complex.mk b a).re = b from rfl, abs_mk_eq_hypot]
    have hne : hypot a b ≠ 0 := by
      intro h0
      rcases (hypot_eq_zero_iff a b).mp h0 with ⟨ha, hb⟩
      exact hz (by apply Complex.ext <;> simp [ha, hb])
    field_simp

/-- round6 is the identity on values that are exact multiples of 1e-6. -/
lemma round6_fix {x : ℝ} (n : ℤ) (h : x * 1000000 = (n : ℝ)) : round6 x = x := by
  rw [round6, h]
  rw [pyround]
  rw [Int.fract_intCast]
  norm_num
  linarith [h]

lemma round6_zero : round6 0 = 0 := round6_fix 0 (by norm_num)

lemma round6_idem (x : ℝ) : round6 (round6 x) = round6 x := by
  apply round6_fix (pyround (x * 1000000))
  rw [round6]
  field_simp

/-- Containment of a pattern in a list of characters, the model of
Python's `pat in s` substring test. -/
def has_sub (pat : List Char) : List Char → Bool
  | [] => pat.isEmpty
  | c :: rest => pat.isPrefixOf (c :: rest) || has_sub pat rest

/-- str.lower(), modelled at the character-list level (ASCII). -/
def py_lower (s : String) : String := String.mk (s.data.map Char.toLower)

/-- str.strip(), modelled at the character-list level. -/
def py_strip (s : String) : String :=
  String.mk (((s.data.dropWhile Char.isWhitespace).reverse.dropWhile Char.isWhitespace).reverse)

/-- The participant-count fallback trigger in run_pipeline:
`"participants" in w.lower()`. -/
def mentions_participants (w : String) : Bool :=
  has_sub "participants".data (py_lower w).data

/-- The per-beat dict index of merge_keyframe_lists (build_index): maps a
rounded beat to the keyframe carrying it; a dict overwrites on key
collision, so the last matching frame wins. -/
def build_index_lookup (kf_list : List Keyframe) (beat_r : ℝ) : Option Keyframe :=
  (kf_list.filter (fun kf => decide (round6 kf.beat = beat_r))).getLast?

/-- The while-loop binary search inside find_frame of merge_keyframe_lists. -/
def bsearch (kf_list : List Keyframe) (beat : ℝ) (lo hi : ℕ) : ℕ × ℕ :=
  if lo + 1 < hi then
    let mid := (lo + hi) / 2
    if (kf_list.getD mid default).beat ≤ beat then bsearch kf_list beat mid hi
    else bsearch kf_list beat lo mid
  else (lo, hi)
termination_by hi - lo
decreasing_by
  · omega
  · omega

/-- find_frame from merge_keyframe_lists: exact lookup on the rounded beat,
else linear interpolation between the two frames the binary search brackets
(positions lerped, facing by the shortest circular arc, hands from the
earlier frame). -/
def find_frame (beat : ℝ) (kf_list : List Keyframe) : Option Keyframe :=
  match build_index_lookup kf_list (round6 beat) with
  | some kf => some kf
  | none =>
    match kf_list with
    | [] => none
    | _ :: _ =>
      let lh := bsearch kf_list beat 0 (kf_list.length - 1)
      if lh.1 = lh.2 then some (kf_list.getD lh.1 default)
      else
        let f0 := kf_list.getD lh.1 default
        let f1 := kf_list.getD lh.2 default
        let dt := f1.beat - f0.beat
        if dt ≤ 0 then some f0
        else
          let t := (beat - f0.beat) / dt
          some { beat := beat,
                 dancers := fun did =>
                   { x := (f0.dancers did).x + ((f1.dancers did).x - (f0.dancers did).x) * t,
                     y := (f0.dancers did).y + ((f1.dancers did).y - (f0.dancers did).y) * t,
                     facing := (f0.dancers did).facing +
                       (pymod ((f1.dancers did).facing - (f0.dancers did).facing + 180) 360 - 180) * t },
                 hands := f0.hands }

/-- The grip identity used to deduplicate hand connections in
merge_keyframe_lists. -/
def hand_key (h : HandConnection) : DancerID × Hand × DancerID × Hand :=
  (h.dancer_a, h.hand_a, h.dancer_b, h.hand_b)

/-- The seen-set deduplication of hand connections, keeping the first
occurrence of each grip identity. -/
def dedup_hands (hs : List HandConnection) : List HandConnection :=
  hs.foldl (fun acc h =>
    if acc.any (fun h2 => decide (hand_key h2 = hand_key h)) then acc else acc ++ [h]) []

/-- One input's contribution to a merged frame: overwrite the accumulated
poses of that input's authoritative dancers with its frame at this beat
(if it has one) and append its hands. -/
def overlay_step (beat : ℝ)
    (acc : (DancerID → DancerState) × List HandConnection)
    (p : List Keyframe × Finset DancerID) :
    (DancerID → DancerState) × List HandConnection :=
  match find_frame beat p.1 with
  | none => acc
  | some frame =>
    (fun did => if did ∈ p.2 then frame.dancers did else acc.1 did,
     acc.2 ++ frame.hands)

/-- One merged frame of merge_keyframe_lists: start from the base frame of
the first list, then overlay each list's authoritative dancers in order and
union the hands. -/
def merge_overlay (lists : List (List Keyframe × Finset DancerID)) (beat : ℝ)
    (base : Keyframe) : Keyframe :=
  let acc := lists.foldl (overlay_step beat) (fun did => base.dancers did, base.hands)
  { beat := beat, dancers := acc.1, hands := dedup_hands acc.2 }

/-- merge_keyframe_lists from interpolation.py. -/
def merge_keyframe_lists (lists : List (List Keyframe × Finset DancerID)) : List Keyframe :=
  match lists with
  | [] => []
  | [p] => p.1
  | p0 :: p1 :: rest =>
    let lists' := p0 :: p1 :: rest
    let all_beats := (lists'.flatMap (fun p => p.1.map (fun kf => round6 kf.beat))).dedup
    let sorted_beats := all_beats.mergeSort (fun a b => decide (a ≤ b))
    sorted_beats.filterMap (fun beat =>
      (find_frame beat p0.1).map (fun base => merge_overlay lists' beat base))

/-- The loop body of circular_arc: the frame at loop index i. -/
def circular_arc_frame (state : WorldState) (participants : List DancerID) (center : ℝ × ℝ)
    (total_angle_deg : ℝ) (beat_start beat_end : ℝ) (beats_per_frame : ℝ)
    (hands : List HandConnection) (face_center : Bool) (i : ℕ) : Keyframe :=
  let cx := center.1
  let cy := center.2
  let n := n_frames beat_start beat_end beats_per_frame
  let t := (i : ℝ) / (n : ℝ)
  let t_eased := _ease_in_out t
  let angle_offset := t_eased * radians total_angle_deg
  { beat := beat_start + t * (beat_end - beat_start),
    dancers := fun did =>
      if did ∈ participants then
        let angle := atan2 ((state.dancers did).x - cx) ((state.dancers did).y - cy) + angle_offset
        let r := hypot ((state.dancers did).x - cx) ((state.dancers did).y - cy)
        let px := cx + r * Real.sin angle
        let py := cy + r * Real.cos angle
        { x := px, y := py,
          facing := if face_center then pymod (degrees (atan2 (cx - px) (cy - py))) 360
                    else (state.dancers did).facing,
          vx := (state.dancers did).vx, vy := (state.dancers did).vy }
      else state.dancers did,
    hands := hands }

/-- circular_arc from interpolation.py. -/
def circular_arc (state : WorldState) (participants : List DancerID) (center : ℝ × ℝ)
    (total_angle_deg : ℝ) (beat_start beat_end : ℝ) (beats_per_frame : ℝ)
    (hands : List HandConnection) (face_center : Bool) : List Keyframe :=
  (List.range (n_frames beat_start beat_end beats_per_frame + 1)).map
    (circular_arc_frame state participants center total_angle_deg beat_start beat_end
      beats_per_frame hands face_center)

/-- The loop body of linear: the frame at loop index i. -/
def linear_frame (state : WorldState) (targets : DancerID → Option DancerState)
    (beat_start beat_end : ℝ) (beats_per_frame : ℝ)
    (hands : List HandConnection) (easing : ℝ → ℝ) (i : ℕ) : Keyframe :=
  let n := n_frames beat_start beat_end beats_per_frame
  let t := (i : ℝ) / (n : ℝ)
  let t_eased := easing t
  { beat := beat_start + t * (beat_end - beat_start),
    dancers := fun did =>
      match targets did with
      | none => state.dancers did
      | some target =>
        let src := state.dancers did
        { x := _lerp src.x target.x t_eased,
          y := _lerp src.y target.y t_eased,
          facing := pymod (src.facing + (pymod (target.facing - src.facing + 180) 360 - 180) * t_eased) 360,
          vx := src.vx, vy := src.vy },
    hands := hands }

/-- linear from interpolation.py; the targets dict is the partial map of
moving dancers. -/
def linear (state : WorldState) (targets : DancerID → Option DancerState)
    (beat_start beat_end : ℝ) (beats_per_frame : ℝ)
    (hands : List HandConnection) (easing : ℝ → ℝ) : List Keyframe :=
  (List.range (n_frames beat_start beat_end beats_per_frame + 1)).map
    (linear_frame state targets beat_start beat_end beats_per_frame hands easing)

/-- The radius schedule of orbit: contract linearly to closing_distance over
the first tenth of the duration, hold, then expand back over the last tenth. -/
def orbit_radius (initial_r closing_distance t : ℝ) : ℝ :=
  if t < 0.1 then _lerp initial_r closing_distance (t / 0.1)
  else if t > 0.9 then _lerp closing_distance initial_r ((t - 0.9) / 0.1)
  else closing_distance

/-- The loop body of orbit: the frame at loop index i. -/
def orbit_frame (state : WorldState) (participants : DancerID × DancerID)
    (total_revolutions : ℝ) (beat_start beat_end : ℝ) (beats_per_frame : ℝ)
    (closing_distance : ℝ) (hands : List HandConnection) (i : ℕ) : Keyframe :=
  let d1 := participants.1
  let d2 := participants.2
  let ds1 := state.dancers d1
  let ds2 := state.dancers d2
  let cx := (ds1.x + ds2.x) / 2
  let cy := (ds1.y + ds2.y) / 2
  let initial_r := hypot (ds1.x - ds2.x) (ds1.y - ds2.y) / 2
  let angle1 := atan2 (ds1.x - cx) (ds1.y - cy)
  let angle2 := atan2 (ds2.x - cx) (ds2.y - cy)
  let total_angle := total_revolutions * 2 * π
  let n := n_frames beat_start beat_end beats_per_frame
  let t := (i : ℝ) / (n : ℝ)
  let angle_offset := t * total_angle
  let r := orbit_radius initial_r closing_distance t
  let a1 := angle1 + angle_offset
  let a2 := angle2 + angle_offset
  { beat := beat_start + t * (beat_end - beat_start),
    dancers := fun did =>
      if did = d2 then
        { x := cx + r * Real.sin a2, y := cy + r * Real.cos a2,
          facing := pymod (degrees (atan2 (cx - (cx + r * Real.sin a2)) (cy - (cy + r * Real.cos a2)))) 360,
          vx := ds2.vx, vy := ds2.vy }
      else if did = d1 then
        { x := cx + r * Real.sin a1, y := cy + r * Real.cos a1,
          facing := pymod (degrees (atan2 (cx - (cx + r * Real.sin a1)) (cy - (cy + r * Real.cos a1)))) 360,
          vx := ds1.vx, vy := ds1.vy }
      else state.dancers did,
    hands := hands }

/-- orbit from interpolation.py; the second participant's in-place update
comes last in the source, so it wins the (degenerate) collision case. -/
def orbit (state : WorldState) (participants : DancerID × DancerID) (total_revolutions : ℝ)
    (beat_start beat_end : ℝ) (beats_per_frame : ℝ) (closing_distance : ℝ)
    (hands : List HandConnection) : List Keyframe :=
  (List.range (n_frames beat_start beat_end beats_per_frame + 1)).map
    (orbit_frame state participants total_revolutions beat_start beat_end beats_per_frame
      closing_distance hands)

/-- The improper starting formation from world.py. -/
def _improper (beat : ℝ) : WorldState :=
  { beat := beat,
    dancers := fun did =>
      match did with
      | DancerID.DOWN_LARK => { x := 0.5, y := 0.5, facing := 180 }
      | DancerID.DOWN_ROBIN => { x := -0.5, y := 0.5, facing := 180 }
      | DancerID.UP_ROBIN => { x := 0.5, y := -0.5, facing := 0 }
      | DancerID.UP_LARK => { x := -0.5, y := -0.5, facing := 0 } }

/-- The beckett starting formation from world.py. -/
def _beckett (beat : ℝ) : WorldState :=
  { beat := beat,
    dancers := fun did =>
      match did with
      | DancerID.DOWN_LARK => { x := -0.5, y := 0.5, facing := 90 }
      | DancerID.DOWN_ROBIN => { x := -0.5, y := -0.5, facing := 90 }
      | DancerID.UP_ROBIN => { x := 0.5, y := 0.5, facing := 270 }
      | DancerID.UP_LARK => { x := 0.5, y := -0.5, facing := 270 } }

/-- make_formation from world.py. -/
def make_formation (formation : Formation) (beat : ℝ) : WorldState :=
  match formation with
  | Formation.IMPROPER => _improper beat
  | Formation.BECKETT => _beckett beat

/-- resolve_participant_group from world.py; the raised ValueError for an
unknown relationship is modelled as none. -/
def resolve_participant_group (reference : String) : Option (List (DancerID × DancerID)) :=
  let ref := py_strip (py_lower reference)
  if ref = "partner" ∨ ref = "partners" then
    some [(DancerID.UP_LARK, DancerID.UP_ROBIN), (DancerID.DOWN_LARK, DancerID.DOWN_ROBIN)]
  else if ref = "neighbor" ∨ ref = "neighbors" then
    some [(DancerID.UP_LARK, DancerID.DOWN_ROBIN), (DancerID.UP_ROBIN, DancerID.DOWN_LARK)]
  else if ref = "opposite" ∨ ref = "opposites" then
    some [(DancerID.UP_LARK, DancerID.DOWN_LARK), (DancerID.UP_ROBIN, DancerID.DOWN_ROBIN)]
  else if ref = "lark" ∨ ref = "larks" ∨ ref = "gentlespoons" then
    some [(DancerID.UP_LARK, DancerID.DOWN_LARK)]
  else if ref = "robin" ∨ ref = "robins" ∨ ref = "ladles" then
    some [(DancerID.UP_ROBIN, DancerID.DOWN_ROBIN)]
  else none

/-- midpoint from world.py (named apart to avoid clashing with Mathlib's
affine midpoint). -/
def world_midpoint (a b : DancerState) : ℝ × ℝ := ((a.x + b.x) / 2, (a.y + b.y) / 2)

/-- The shared end-state construction of allemande.py, do_si_do.py and
box_the_gnat.py: copy the start state, advance beat, and overwrite the two
participants from the last generated keyframe (when any frames exist). -/
def figure_end_from_last (state : WorldState) (beat_end : ℝ) (dids : List DancerID)
    (keyframes : List Keyframe) : WorldState :=
  match keyframes.getLast? with
  | none => { state with beat := beat_end }
  | some last =>
    { beat := beat_end,
      dancers := fun did => if did ∈ dids then last.dancers did else state.dancers did,
      hands := state.hands }

/-- _allemande from figures/builtin/allemande.py (src/old tree). -/
def _allemande (ctx : FigureContext) (hand : String) (clockwise : Bool) : FigureResult :=
  let state := ctx.start_state
  match ctx.participants with
  | [d1, d2] =>
    let turns := ctx.params.turns.getD 0.5
    let total_angle := if clockwise then turns * 360 else -(turns * 360)
    let center := world_midpoint (state.dancers d1) (state.dancers d2)
    let hand_enum := if hand = "right" then Hand.RIGHT else Hand.LEFT
    let hands := [HandConnection.mk d1 hand_enum d2 hand_enum]
    let keyframes := circular_arc state [d1, d2] center total_angle
      ctx.beat_start ctx.beat_end ctx.beats_per_frame hands true
    { keyframes := keyframes,
      end_state := figure_end_from_last state ctx.beat_end [d1, d2] keyframes,
      warnings := [] }
  | ps =>
    { keyframes := [], end_state := state,
      warnings := ["Allemande needs 2 participants, got " ++ toString ps.length] }

def allemande_right (ctx : FigureContext) : FigureResult := _allemande ctx "right" true

def allemande_left (ctx : FigureContext) : FigureResult := _allemande ctx "left" false

/-- do_si_do from figures/builtin/do_si_do.py. -/
def do_si_do (ctx : FigureContext) : FigureResult :=
  let state := ctx.start_state
  match ctx.participants with
  | [d1, d2] =>
    let turns := ctx.params.turns.getD 1.0
    let total_angle := turns * 360
    let center := world_midpoint (state.dancers d1) (state.dancers d2)
    let keyframes := circular_arc state [d1, d2] center total_angle
      ctx.beat_start ctx.beat_end ctx.beats_per_frame [] false
    { keyframes := keyframes,
      end_state := figure_end_from_last state ctx.beat_end [d1, d2] keyframes,
      warnings := [] }
  | ps =>
    { keyframes := [], end_state := state,
      warnings := ["Do si do needs 2 participants, got " ++ toString ps.length] }

/-- box_the_gnat from figures/builtin/box_the_gnat.py. -/
def box_the_gnat (ctx : FigureContext) : FigureResult :=
  let state := ctx.start_state
  match ctx.participants with
  | [d1, d2] =>
    let center := world_midpoint (state.dancers d1) (state.dancers d2)
    let hands := [HandConnection.mk d1 Hand.RIGHT d2 Hand.RIGHT]
    let keyframes := circular_arc state [d1, d2] center 180
      ctx.beat_start ctx.beat_end ctx.beats_per_frame hands true
    { keyframes := keyframes,
      end_state := figure_end_from_last state ctx.beat_end [d1, d2] keyframes,
      warnings := [] }
  | ps =>
    { keyframes := [], end_state := state,
      warnings := ["Box the gnat needs 2 participants, got " ++ toString ps.length] }

/-- _orbit_end_positions from figures/builtin/swing.py: the closed-form
t = 1.0 endpoint of orbit, without generating frames.  The dict keyed by the
two dancers is the function below (second key wins on collision, as a dict
literal would). -/
def _orbit_end_positions (d1 d2 : DancerID) (state : WorldState) (revolutions : ℝ)
    (closing_distance : ℝ) : DancerID → ℝ × ℝ :=
  let ds1 := state.dancers d1
  let ds2 := state.dancers d2
  let cx := (ds1.x + ds2.x) / 2
  let cy := (ds1.y + ds2.y) / 2
  let initial_r := hypot (ds1.x - ds2.x) (ds1.y - ds2.y) / 2
  let angle1 := atan2 (ds1.x - cx) (ds1.y - cy)
  let angle2 := atan2 (ds2.x - cx) (ds2.y - cy)
  let total_angle := revolutions * 2 * π
  let a1 := angle1 + total_angle
  let a2 := angle2 + total_angle
  fun did =>
    if did = d2 then (cx + initial_r * Real.sin a2, cy + initial_r * Real.cos a2)
    else if did = d1 then (cx + initial_r * Real.sin a1, cy + initial_r * Real.cos a1)
    else (0, 0)

/-- _end_state_error from figures/builtin/swing.py: sum of squared distances
over the keys of the orbit_ends dict (the two dancers). -/
def _end_state_error (d1 d2 : DancerID) (orbit_ends desired : DancerID → ℝ × ℝ) : ℝ :=
  ((if d1 = d2 then [d1] else [d1, d2]).map (fun did =>
    ((orbit_ends did).1 - (desired did).1) ^ 2 + ((orbit_ends did).2 - (desired did).2) ^ 2)).sum

/-- The desired end positions computed inside swing: the lark a half
separation to the left of the end center (perpendicular to target_facing),
the robin symmetric on the right. -/
def swing_desired (lark robin : DancerID) (target_facing : ℝ) (end_center : ℝ × ℝ) :
    DancerID → ℝ × ℝ :=
  let facing_rad := radians target_facing
  let perp_x := -Real.cos facing_rad
  let perp_y := Real.sin facing_rad
  let sep := (0.5 : ℝ)
  fun did =>
    if did = robin then (end_center.1 - perp_x * sep, end_center.2 - perp_y * sep)
    else if did = lark then (end_center.1 + perp_x * sep, end_center.2 + perp_y * sep)
    else (0, 0)

/-- The per-candidate score of swing's revolution search: the summed squared
distance between the closed-form orbit endpoint and the desired endpoint. -/
def swing_candidate_err (d1 d2 : DancerID) (state : WorldState)
    (desired : DancerID → ℝ × ℝ) (closing_distance : ℝ) (candidate : ℝ) : ℝ :=
  _end_state_error d1 d2 (_orbit_end_positions d1 d2 state candidate closing_distance) desired

/-- One iteration of swing's revolution grid search: skip candidates below
0.5, otherwise keep the first candidate attaining the strictly smallest
error so far.  Python's float("inf") initial best error is the none of the
Option accumulator. -/
def swing_search_step (d1 d2 : DancerID) (state : WorldState)
    (desired : DancerID → ℝ × ℝ) (closing_distance : ℝ)
    (best : ℝ × Option ℝ) (candidate : ℝ) : ℝ × Option ℝ :=
  if candidate < 0.5 then best
  else
    let err := swing_candidate_err d1 d2 state desired closing_distance candidate
    match best.2 with
    | none => (candidate, some err)
    | some best_err => if err < best_err then (candidate, some err) else best

/-- The revolution-count grid search inside swing: candidates naive ± 0.5 at
0.01 increments. -/
def swing_pick_revolutions (d1 d2 : DancerID) (state : WorldState)
    (desired : DancerID → ℝ × ℝ) (closing_distance : ℝ) (naive : ℝ) : ℝ :=
  (((List.range 101).map (fun k => naive + ((k : ℝ) - 50) / 100)).foldl
    (swing_search_step d1 d2 state desired closing_distance)
    ((naive, none) : ℝ × Option ℝ)).1

/-- swing from figures/builtin/swing.py. -/
def swing (ctx : FigureContext) : FigureResult :=
  let state := ctx.start_state
  match ctx.participants with
  | [d1, d2] =>
    let lr := if d1.is_lark then (d1, d2) else (d2, d1)
    let lark := lr.1
    let robin := lr.2
    match ctx.params.target_facing, ctx.params.end_center with
    | some target_facing, some end_center =>
      let desired := swing_desired lark robin target_facing end_center
      let closing_distance := (0.15 : ℝ)
      let revolutions :=
        match ctx.params.revolutions with
        | some r => r
        | none => swing_pick_revolutions d1 d2 state desired closing_distance (ctx.duration / 4)
      let hands := [HandConnection.mk lark Hand.RIGHT robin Hand.LEFT]
      let keyframes0 := orbit state (d1, d2) revolutions
        ctx.beat_start ctx.beat_end ctx.beats_per_frame closing_distance hands
      let end_state : WorldState :=
        { beat := ctx.beat_end,
          dancers := fun did =>
            if did = robin then
              { x := (desired robin).1, y := (desired robin).2, facing := target_facing }
            else if did = lark then
              { x := (desired lark).1, y := (desired lark).2, facing := target_facing }
            else state.dancers did,
          hands := state.hands }
      let keyframes :=
        match keyframes0.getLast? with
        | none => keyframes0
        | some last => keyframes0.dropLast ++
            [{ last with dancers := fun did =>
                 if did = robin ∨ did = lark then end_state.dancers did else last.dancers did }]
      { keyframes := keyframes, end_state := end_state, warnings := [] }
    | _, _ =>
      { keyframes := [], end_state := state,
        warnings := ["Swing requires target_facing and end_center params."] }
  | ps =>
    { keyframes := [], end_state := state,
      warnings := ["Swing needs exactly 2 participants, got " ++ toString ps.length] }

/-- The closest-unused-partner scan of balance's pairing loop. -/
def balance_closest (state : WorldState) (d1 : DancerID) (used : List DancerID)
    (participants : List DancerID) : Option DancerID :=
  (participants.foldl
    (fun (best : Option (DancerID × ℝ)) d2 =>
      if d2 = d1 ∨ d2 ∈ used then best
      else
        let dist := hypot ((state.dancers d1).x - (state.dancers d2).x)
          ((state.dancers d1).y - (state.dancers d2).y)
        match best with
        | none => some (d2, dist)
        | some b => if dist < b.2 then some (d2, dist) else best)
    none).map (fun b => b.1)

/-- The greedy pairing loop of balance. -/
def balance_pairs (state : WorldState) (participants : List DancerID) :
    List (DancerID × DancerID) :=
  (participants.foldl
    (fun (acc : List (DancerID × DancerID) × List DancerID) d1 =>
      if d1 ∈ acc.2 then acc
      else
        match balance_closest state d1 acc.2 participants with
        | none => acc
        | some best => (acc.1 ++ [(d1, best)], acc.2 ++ [d1, best]))
    ([], [])).1

/-- The targets_in dict of balance: each paired dancer steps step_distance
toward its partner along the unit direction (zero direction on coincident
positions), keeping its facing. -/
def balance_targets_in (state : WorldState) (step_distance : ℝ)
    (pairs : List (DancerID × DancerID)) : DancerID → Option DancerState :=
  pairs.foldl
    (fun targets pair =>
      let ds1 := state.dancers pair.1
      let ds2 := state.dancers pair.2
      let dx := ds2.x - ds1.x
      let dy := ds2.y - ds1.y
      let dist := hypot dx dy
      let nv : ℝ × ℝ := if dist > 0 then (dx / dist, dy / dist) else (0, 0)
      fun did =>
        if did = pair.2 then
          some { x := ds2.x - nv.1 * step_distance, y := ds2.y - nv.2 * step_distance,
                 facing := ds2.facing }
        else if did = pair.1 then
          some { x := ds1.x + nv.1 * step_distance, y := ds1.y + nv.2 * step_distance,
                 facing := ds1.facing }
        else targets did)
    (fun _ => none)

/-- balance from figures/builtin/balance.py. -/
def balance (ctx : FigureContext) : FigureResult :=
  let state := ctx.start_state
  let step_distance := ctx.params.step_distance.getD 0.3
  let pairs := balance_pairs state ctx.participants
  let mid_beat := (ctx.beat_start + ctx.beat_end) / 2
  let targets_in := balance_targets_in state step_distance pairs
  let kf1 := linear state targets_in ctx.beat_start mid_beat ctx.beats_per_frame [] _ease_in_out
  let mid_state : WorldState :=
    match kf1.getLast? with
    | none => { state with beat := mid_beat }
    | some last => { beat := mid_beat, dancers := fun did => last.dancers did, hands := state.hands }
  let targets_back : DancerID → Option DancerState :=
    fun did => (targets_in did).map (fun _ => state.dancers did)
  let kf2 := linear mid_state targets_back mid_beat ctx.beat_end ctx.beats_per_frame [] _ease_in_out
  { keyframes := kf1 ++ kf2.tail,
    end_state := { state with beat := ctx.beat_end },
    warnings := [] }

/-- The figure registry assembled by the @figure registrations of the
embedded builtin modules (figures/base.py get_figure). -/
def get_figure (name : String) : Option (FigureContext → FigureResult) :=
  if name = "swing" ∨ name = "partner_swing" ∨ name = "neighbor_swing" then some swing
  else if name = "balance" ∨ name = "balance_right" ∨ name = "balance_left" then some balance
  else if name = "do_si_do" ∨ name = "dosido" ∨ name = "do_si_do_once" then some do_si_do
  else if name = "box_the_gnat" then some box_the_gnat
  else if name = "allemande_right" ∨ name = "allemande_r" then some allemande_right
  else if name = "allemande_left" ∨ name = "allemande_l" then some allemande_left
  else none

/-- The loop body of _resolve_participant_pairs from pipeline.py: an
"all"/"everyone" token returns the four adjacency pairs immediately; an
unresolvable token (ValueError) is silently skipped; resolved pairs are
appended with seen-set deduplication. -/
def resolve_pairs_loop (refs : List String) (pairs seen : List (DancerID × DancerID)) :
    List (DancerID × DancerID) :=
  match refs with
  | [] => pairs
  | ref :: rest =>
    let ref_lower := py_strip (py_lower ref)
    if ref_lower = "all" ∨ ref_lower = "everyone" then
      [(DancerID.UP_LARK, DancerID.UP_ROBIN),
       (DancerID.DOWN_LARK, DancerID.DOWN_ROBIN),
       (DancerID.UP_LARK, DancerID.DOWN_ROBIN),
       (DancerID.UP_ROBIN, DancerID.DOWN_LARK)]
    else
      match resolve_participant_group ref_lower with
      | none => resolve_pairs_loop rest pairs seen
      | some resolved =>
        let step := resolved.foldl
          (fun (acc : List (DancerID × DancerID) × List (DancerID × DancerID)) pair =>
            if pair ∈ acc.2 then acc else (acc.1 ++ [pair], acc.2 ++ [pair]))
          (pairs, seen)
        resolve_pairs_loop rest step.1 step.2

/-- _resolve_participant_pairs from pipeline.py. -/
def _resolve_participant_pairs (references : List String) : List (DancerID × DancerID) :=
  resolve_pairs_loop references [] []

/-- The running accumulator of run_pipeline's inner loop over one group's
figure calls. -/
structure CallAcc where
  state : WorldState
  warnings : List String
  results : List (List Keyframe × Finset DancerID)

/-- The state update `state.dancers[did] = result.end_state.dancers[did].copy()`
for each listed participant (the membership test on the end-state dict is
always true under the total-function model). -/
def update_dancers (state : WorldState) (dids : List DancerID) (endSt : WorldState) : WorldState :=
  { state with dancers := fun did => if did ∈ dids then endSt.dancers did else state.dancers did }

/-- The FigureContext run_pipeline builds for an invocation (beats_per_frame
left at its 0.25 default). -/
def pair_ctx (fc : FigureCall) (state : WorldState) (ps : List DancerID) : FigureContext :=
  { call := fc, start_state := state, participants := ps }

/-- One iteration of the per-pair fallback loop of run_pipeline. -/
def fallback_step (fig_func : FigureContext → FigureResult) (fc : FigureCall)
    (acc : CallAcc) (pair : DancerID × DancerID) : CallAcc :=
  let pair_list := [pair.1, pair.2]
  let pair_result := fig_func (pair_ctx fc acc.state pair_list)
  { state := update_dancers acc.state pair_list pair_result.end_state,
    warnings := acc.warnings ++ pair_result.warnings,
    results := if pair_result.keyframes.isEmpty then acc.results
               else acc.results ++ [(pair_result.keyframes, pair_list.toFinset)] }

/-- The per-pair fallback loop of run_pipeline: re-invoke the figure once per
resolved pair against the running state, accumulating only the pair results'
warnings, keyframes and end states. -/
def fallback_run (fig_func : FigureContext → FigureResult) (fc : FigureCall)
    (pairs : List (DancerID × DancerID)) (acc : CallAcc) : CallAcc :=
  pairs.foldl (fallback_step fig_func fc) acc

/-- The body of run_pipeline's loop for a single figure call: unknown-name
and unresolved-participants warnings, the full-group invocation, and the
"participants" warning-sniffing fallback to per-pair invocation. -/
def process_call (fc : FigureCall) (acc : CallAcc) : CallAcc :=
  match get_figure fc.name with
  | none => { acc with warnings := acc.warnings ++ ["Unknown figure: " ++ fc.name] }
  | some fig_func =>
    let participant_pairs := _resolve_participant_pairs fc.participants
    if participant_pairs = [] then
      { acc with warnings := acc.warnings ++
          ["Could not resolve participants for " ++ fc.name ++ ": " ++ toString fc.participants] }
    else
      let all_participants := participant_pairs.flatMap (fun pair => [pair.1, pair.2])
      let result := fig_func (pair_ctx fc acc.state all_participants)
      if result.warnings.any mentions_participants then
        fallback_run fig_func fc participant_pairs acc
      else
        { state := update_dancers acc.state all_participants result.end_state,
          warnings := acc.warnings ++ result.warnings,
          results := if result.keyframes.isEmpty then acc.results
                     else acc.results ++ [(result.keyframes, all_participants.toFinset)] }

lemma range_map_length {α : Type} (f : ℕ → α) (n : ℕ) :
    ((List.range (n + 1)).map f).length = n + 1 := by
  simp

lemma range_map_ne_nil {α : Type} (f : ℕ → α) (n : ℕ) :
    ((List.range (n + 1)).map f) ≠ [] := by
  simp

lemma range_map_getD {α : Type} (f : ℕ → α) (n i : ℕ) (h : i < n + 1) (d : α) :
    ((List.range (n + 1)).map f).getD i d = f i := by
  rw [List.getD_eq_getElem?_getD]
  rw [List.getElem?_map]
  rw [List.getElem?_range h]
  rfl

lemma range_map_headD {α : Type} (f : ℕ → α) (n : ℕ) (d : α) :
    ((List.range (n + 1)).map f).headD d = f 0 := by
  rw [List.range_succ_eq_map]
  rfl

lemma range_map_getLast? {α : Type} (f : ℕ → α) (n : ℕ) :
    ((List.range (n + 1)).map f).getLast? = some (f n) := by
  rw [List.getLast?_eq_getElem?]
  rw [List.getElem?_map]
  simp

lemma ease_zero : _ease_in_out 0 = 0 := by
  simp [_ease_in_out]

lemma ease_one : _ease_in_out 1 = 1 := by
  simp [_ease_in_out, Real.cos_pi]

lemma pymod_eq_self {x m : ℝ} (hm : 0 < m) (h0 : 0 ≤ x) (h1 : x < m) : pymod x m = x := by
  rw [pymod]
  have : ⌊x / m⌋ = 0 := by
    rw [Int.floor_eq_zero_iff]
    constructor
    · positivity
    · rw [div_lt_one hm]
      exact h1
  rw [this]
  ring

lemma pymod_add_int_mul (x m : ℝ) (k : ℤ) (hm : m ≠ 0) :
    pymod (x + m * k) m = pymod x m := by
  rw [pymod, pymod]
  have : (x + m * k) / m = x / m + k := by
    field_simp
    ring
  rw [this, Int.floor_add_int]
  push_cast
  ring

lemma pymod_nonneg {x m : ℝ} (hm : 0 < m) : 0 ≤ pymod x m := by
  rw [pymod]
  have h := Int.floor_le (x / m)
  have : m * ⌊x / m⌋ ≤ m * (x / m) := by
    exact mul_le_mul_of_nonneg_left h (le_of_lt hm)
  have hx : m * (x / m) = x := by
    field_simp
  linarith

lemma pymod_lt {x m : ℝ} (hm : 0 < m) : pymod x m < m := by
  rw [pymod]
  have h := Int.lt_floor_add_one (x / m)
  have : m * (x / m) < m * (⌊x / m⌋ + 1) := mul_lt_mul_of_pos_left h hm
  have hx : m * (x / m) = x := by
    field_simp
  nlinarith

/-- The shortest-arc facing update lands on the target facing modulo 360:
src + (((target - src + 180) mod 360) - 180) differs from target by a whole
number of turns. -/
lemma pymod_shortest_arc_lands (sf tf : ℝ) :
    pymod (sf + (pymod (tf - sf + 180) 360 - 180)) 360 = pymod tf 360 := by
  have h1 : sf + (pymod (tf - sf + 180) 360 - 180) =
      tf + 360 * ((-⌊(tf - sf + 180) / 360⌋ : ℤ) : ℝ) := by
    simp only [pymod]
    push_cast
    ring
  rw [h1, pymod_add_int_mul tf 360 _ (by norm_num)]

lemma hypot_half (a b : ℝ) : hypot (a / 2) (b / 2) = hypot a b / 2 := by
  rw [hypot, hypot, show (a / 2) ^ 2 + (b / 2) ^ 2 = (a ^ 2 + b ^ 2) / 4 by ring,
    Real.sqrt_div (by positivity) 4,
    show Real.sqrt 4 = 2 by
      rw [show (4 : ℝ) = 2 ^ 2 by norm_num, Real.sqrt_sq (by norm_num)]]

lemma dist_center (cx cy r a : ℝ) (hr : 0 ≤ r) :
    hypot (cx + r * Real.sin a - cx) (cy + r * Real.cos a - cy) = r := by
  have h : (cx + r * Real.sin a - cx) ^ 2 + (cy + r * Real.cos a - cy) ^ 2 = r ^ 2 := by
    have hs := Real.sin_sq_add_cos_sq a
    nlinarith [hs]
  rw [hypot, h, Real.sqrt_sq hr]

lemma circular_arc_frame_beat (state : WorldState) (ps : List DancerID) (c : ℝ × ℝ)
    (θ b0 b1 Δ : ℝ) (hs : List HandConnection) (fc : Bool) (i : ℕ) :
    (circular_arc_frame state ps c θ b0 b1 Δ hs fc i).beat =
      b0 + ((i : ℝ) / (n_frames b0 b1 Δ : ℝ)) * (b1 - b0) := rfl

lemma linear_frame_beat (state : WorldState) (targets : DancerID → Option DancerState)
    (b0 b1 Δ : ℝ) (hs : List HandConnection) (easing : ℝ → ℝ) (i : ℕ) :
    (linear_frame state targets b0 b1 Δ hs easing i).beat =
      b0 + ((i : ℝ) / (n_frames b0 b1 Δ : ℝ)) * (b1 - b0) := rfl

lemma orbit_frame_beat (state : WorldState) (parts : DancerID × DancerID)
    (rev b0 b1 Δ cd : ℝ) (hs : List HandConnection) (i : ℕ) :
    (orbit_frame state parts rev b0 b1 Δ cd hs i).beat =
      b0 + ((i : ℝ) / (n_frames b0 b1 Δ : ℝ)) * (b1 - b0) := rfl

lemma frame_t_zero (b0 b1 Δ : ℝ) : ((0 : ℕ) : ℝ) / (n_frames b0 b1 Δ : ℝ) = 0 := by
  simp

lemma frame_t_one (b0 b1 Δ : ℝ) :
    ((n_frames b0 b1 Δ : ℕ) : ℝ) / (n_frames b0 b1 Δ : ℝ) = 1 := by
  have h := n_frames_pos b0 b1 Δ
  have : (n_frames b0 b1 Δ : ℝ) ≠ 0 := by
    exact_mod_cast Nat.pos_iff_ne_zero.mp h
  field_simp

lemma circular_arc_frame_nonparticipant (state : WorldState) (ps : List DancerID)
    (c : ℝ × ℝ) (θ b0 b1 Δ : ℝ) (hs : List HandConnection) (fc : Bool) (i : ℕ)
    (did : DancerID) (h : did ∉ ps) :
    (circular_arc_frame state ps c θ b0 b1 Δ hs fc i).dancers did = state.dancers did := by
  simp [circular_arc_frame, h]

lemma circular_arc_frame0_x (state : WorldState) (ps : List DancerID) (c : ℝ × ℝ)
    (θ b0 b1 Δ : ℝ) (hs : List HandConnection) (fc : Bool)
    (did : DancerID) (h : did ∈ ps) :
    ((circular_arc_frame state ps c θ b0 b1 Δ hs fc 0).dancers did).x =
      (state.dancers did).x := by
  simp only [circular_arc_frame, if_pos h, frame_t_zero, ease_zero, zero_mul, add_zero,
    hypot_mul_sin_atan2]
  ring

lemma circular_arc_frame0_y (state : WorldState) (ps : List DancerID) (c : ℝ × ℝ)
    (θ b0 b1 Δ : ℝ) (hs : List HandConnection) (fc : Bool)
    (did : DancerID) (h : did ∈ ps) :
    ((circular_arc_frame state ps c θ b0 b1 Δ hs fc 0).dancers did).y =
      (state.dancers did).y := by
  simp only [circular_arc_frame, if_pos h, frame_t_zero, ease_zero, zero_mul, add_zero,
    hypot_mul_cos_atan2]
  ring

lemma circular_arc_frame0_maintain (state : WorldState) (ps : List DancerID) (c : ℝ × ℝ)
    (θ b0 b1 Δ : ℝ) (hs : List HandConnection)
    (did : DancerID) (h : did ∈ ps) :
    (circular_arc_frame state ps c θ b0 b1 Δ hs false 0).dancers did = state.dancers did := by
  simp only [circular_arc_frame, if_pos h, frame_t_zero, ease_zero, zero_mul, add_zero,
    hypot_mul_sin_atan2, hypot_mul_cos_atan2, Bool.false_eq_true, if_false]
  have hx : c.1 + ((state.dancers did).x - c.1) = (state.dancers did).x := by ring
  have hy : c.2 + ((state.dancers did).y - c.2) = (state.dancers did).y := by ring
  rw [hx, hy]

lemma circular_arc_frame0_face_center (state : WorldState) (ps : List DancerID) (c : ℝ × ℝ)
    (θ b0 b1 Δ : ℝ) (hs : List HandConnection)
    (did : DancerID) (h : did ∈ ps) :
    ((circular_arc_frame state ps c θ b0 b1 Δ hs true 0).dancers did).facing =
      pymod (degrees (atan2 (c.1 - (state.dancers did).x) (c.2 - (state.dancers did).y))) 360 := by
  simp only [circular_arc_frame, if_pos h, frame_t_zero, ease_zero, zero_mul, add_zero,
    hypot_mul_sin_atan2, hypot_mul_cos_atan2, if_true]
  have hx : c.1 + ((state.dancers did).x - c.1) = (state.dancers did).x := by ring
  have hy : c.2 + ((state.dancers did).y - c.2) = (state.dancers did).y := by ring
  rw [hx, hy]

lemma orbit_radius_zero (ir cd : ℝ) : orbit_radius ir cd 0 = ir := by
  rw [orbit_radius, if_pos (by norm_num : (0 : ℝ) < 0.1)]
  simp [_lerp]

lemma orbit_radius_one (ir cd : ℝ) : orbit_radius ir cd 1 = ir := by
  rw [orbit_radius, if_neg (by norm_num : ¬ (1 : ℝ) < 0.1),
    if_pos (by norm_num : (1 : ℝ) > 0.9)]
  rw [show ((1 : ℝ) - 0.9) / 0.1 = 1 by norm_num]
  simp [_lerp]

lemma orbit_radius_mid (ir cd t : ℝ) (h1 : 0.1 ≤ t) (h2 : t ≤ 0.9) :
    orbit_radius ir cd t = cd := by
  rw [orbit_radius, if_neg (not_lt.mpr h1), if_neg (not_lt.mpr h2)]

lemma orbit_radius_early (ir cd t : ℝ) (h1 : 0 ≤ t) (h2 : t ≤ 0.1) :
    orbit_radius ir cd t = _lerp ir cd (t / 0.1) := by
  rcases lt_or_eq_of_le h2 with hlt | heq
  · rw [orbit_radius, if_pos hlt]
  · subst heq
    rw [orbit_radius_mid ir cd _ le_rfl (by norm_num)]
    rw [show (0.1 : ℝ) / 0.1 = 1 by norm_num]
    simp [_lerp]

lemma orbit_radius_late (ir cd t : ℝ) (h1 : 0.9 ≤ t) (h2 : t ≤ 1) :
    orbit_radius ir cd t = _lerp cd ir ((t - 0.9) / 0.1) := by
  rcases lt_or_eq_of_le h1 with hlt | heq
  · rw [orbit_radius, if_neg (by linarith : ¬ t < 0.1), if_pos hlt]
  · rw [← heq]
    rw [orbit_radius_mid ir cd _ (by norm_num) le_rfl]
    rw [show ((0.9 : ℝ) - 0.9) / 0.1 = 0 by norm_num]
    simp [_lerp]

lemma lerp_nonneg {a b s : ℝ} (ha : 0 ≤ a) (hb : 0 ≤ b) (h0 : 0 ≤ s) (h1 : s ≤ 1) :
    0 ≤ _lerp a b s := by
  rw [_lerp]
  nlinarith

lemma orbit_radius_nonneg (ir cd t : ℝ) (hir : 0 ≤ ir) (hcd : 0 ≤ cd)
    (ht0 : 0 ≤ t) (ht1 : t ≤ 1) : 0 ≤ orbit_radius ir cd t := by
  rw [orbit_radius]
  split
  · apply lerp_nonneg hir hcd (div_nonneg ht0 (by norm_num))
    rw [div_le_one (by norm_num)]
    linarith
  · split
    · rename_i h1 h2
      apply lerp_nonneg hcd hir (div_nonneg (by linarith) (by norm_num))
      rw [div_le_one (by norm_num)]
      linarith
    · exact hcd

lemma orbit_frame_pos (state : WorldState) (parts : DancerID × DancerID)
    (rev b0 b1 Δ cd : ℝ) (hs : List HandConnection) (i : ℕ) (did : DancerID)
    (hdid : did = parts.1 ∨ did = parts.2) :
    ((orbit_frame state parts rev b0 b1 Δ cd hs i).dancers did).x =
      ((state.dancers parts.1).x + (state.dancers parts.2).x) / 2 +
        orbit_radius (hypot ((state.dancers parts.1).x - (state.dancers parts.2).x)
            ((state.dancers parts.1).y - (state.dancers parts.2).y) / 2) cd
          ((i : ℝ) / (n_frames b0 b1 Δ : ℝ)) *
        Real.sin (atan2
            ((state.dancers did).x - ((state.dancers parts.1).x + (state.dancers parts.2).x) / 2)
            ((state.dancers did).y - ((state.dancers parts.1).y + (state.dancers parts.2).y) / 2) +
          ((i : ℝ) / (n_frames b0 b1 Δ : ℝ)) * (rev * 2 * π)) ∧
    ((orbit_frame state parts rev b0 b1 Δ cd hs i).dancers did).y =
      ((state.dancers parts.1).y + (state.dancers parts.2).y) / 2 +
        orbit_radius (hypot ((state.dancers parts.1).x - (state.dancers parts.2).x)
            ((state.dancers parts.1).y - (state.dancers parts.2).y) / 2) cd
          ((i : ℝ) / (n_frames b0 b1 Δ : ℝ)) *
        Real.cos (atan2
            ((state.dancers did).x - ((state.dancers parts.1).x + (state.dancers parts.2).x) / 2)
            ((state.dancers did).y - ((state.dancers parts.1).y + (state.dancers parts.2).y) / 2) +
          ((i : ℝ) / (n_frames b0 b1 Δ : ℝ)) * (rev * 2 * π)) := by
  obtain ⟨d1, d2⟩ := parts
  rcases hdid with h | h
  · subst h
    by_cases h12 : did = d2
    · subst h12
      constructor <;> simp [orbit_frame]
    · constructor <;> simp [orbit_frame, h12]
  · subst h
    constructor <;> simp [orbit_frame]

lemma orbit_frame_dist (state : WorldState) (parts : DancerID × DancerID)
    (rev b0 b1 Δ cd : ℝ) (hs : List HandConnection) (i : ℕ) (did : DancerID)
    (hdid : did = parts.1 ∨ did = parts.2) (hcd : 0 ≤ cd) (hi : i ≤ n_frames b0 b1 Δ) :
    hypot
      (((orbit_frame state parts rev b0 b1 Δ cd hs i).dancers did).x -
        ((state.dancers parts.1).x + (state.dancers parts.2).x) / 2)
      (((orbit_frame state parts rev b0 b1 Δ cd hs i).dancers did).y -
        ((state.dancers parts.1).y + (state.dancers parts.2).y) / 2) =
      orbit_radius (hypot ((state.dancers parts.1).x - (state.dancers parts.2).x)
          ((state.dancers parts.1).y - (state.dancers parts.2).y) / 2) cd
        ((i : ℝ) / (n_frames b0 b1 Δ : ℝ)) := by
  obtain ⟨hx, hy⟩ := orbit_frame_pos state parts rev b0 b1 Δ cd hs i did hdid
  rw [hx, hy]
  have hn := n_frames_pos b0 b1 Δ
  have ht0 : (0 : ℝ) ≤ (i : ℝ) / (n_frames b0 b1 Δ : ℝ) := by positivity
  have ht1 : (i : ℝ) / (n_frames b0 b1 Δ : ℝ) ≤ 1 := by
    rw [div_le_one (by exact_mod_cast hn)]
    exact_mod_cast hi
  exact dist_center _ _ _ _ (orbit_radius_nonneg _ _ _
    (div_nonneg (hypot_nonneg _ _) (by norm_num)) hcd ht0 ht1)

lemma lerp_zero (a b : ℝ) : _lerp a b 0 = a := by
  simp [_lerp]

lemma lerp_one (a b : ℝ) : _lerp a b 1 = b := by
  simp [_lerp]

lemma orbit_frame0_pos (state : WorldState) (parts : DancerID × DancerID)
    (rev b0 b1 Δ cd : ℝ) (hs : List HandConnection) (did : DancerID)
    (hdid : did = parts.1 ∨ did = parts.2) :
    ((orbit_frame state parts rev b0 b1 Δ cd hs 0).dancers did).x = (state.dancers did).x ∧
    ((orbit_frame state parts rev b0 b1 Δ cd hs 0).dancers did).y = (state.dancers did).y := by
  obtain ⟨hx, hy⟩ := orbit_frame_pos state parts rev b0 b1 Δ cd hs 0 did hdid
  rw [hx, hy, frame_t_zero, orbit_radius_zero, zero_mul, add_zero]
  have harg : ∀ dd : DancerID, (dd = parts.1 ∨ dd = parts.2) →
      hypot ((state.dancers parts.1).x - (state.dancers parts.2).x)
          ((state.dancers parts.1).y - (state.dancers parts.2).y) / 2 =
        hypot ((state.dancers dd).x - ((state.dancers parts.1).x + (state.dancers parts.2).x) / 2)
          ((state.dancers dd).y - ((state.dancers parts.1).y + (state.dancers parts.2).y) / 2) := by
    intro dd hdd
    rcases hdd with h | h <;> subst h
    · rw [← hypot_half]
      congr 1 <;> ring
    · rw [show hypot ((state.dancers parts.1).x - (state.dancers parts.2).x)
          ((state.dancers parts.1).y - (state.dancers parts.2).y) =
          hypot ((state.dancers parts.2).x - (state.dancers parts.1).x)
          ((state.dancers parts.2).y - (state.dancers parts.1).y) by
        rw [hypot, hypot]
        ring_nf]
      rw [← hypot_half]
      congr 1 <;> ring
  rw [harg did hdid, hypot_mul_sin_atan2, hypot_mul_cos_atan2]
  constructor <;> ring

lemma orbit_frame_nonparticipant (state : WorldState) (parts : DancerID × DancerID)
    (rev b0 b1 Δ cd : ℝ) (hs : List HandConnection) (i : ℕ) (did : DancerID)
    (h1 : did ≠ parts.1) (h2 : did ≠ parts.2) :
    (orbit_frame state parts rev b0 b1 Δ cd hs i).dancers did = state.dancers did := by
  simp [orbit_frame, h1, h2]

lemma linear_frame_dancer_none (state : WorldState) (targets : DancerID → Option DancerState)
    (b0 b1 Δ : ℝ) (hs : List HandConnection) (easing : ℝ → ℝ) (i : ℕ) (did : DancerID)
    (h : targets did = none) :
    (linear_frame state targets b0 b1 Δ hs easing i).dancers did = state.dancers did := by
  simp [linear_frame, h]

lemma linear_frame_dancer_some (state : WorldState) (targets : DancerID → Option DancerState)
    (b0 b1 Δ : ℝ) (hs : List HandConnection) (easing : ℝ → ℝ) (i : ℕ) (did : DancerID)
    (target : DancerState) (h : targets did = some target) :
    (linear_frame state targets b0 b1 Δ hs easing i).dancers did =
      { x := _lerp (state.dancers did).x target.x (easing ((i : ℝ) / (n_frames b0 b1 Δ : ℝ))),
        y := _lerp (state.dancers did).y target.y (easing ((i : ℝ) / (n_frames b0 b1 Δ : ℝ))),
        facing := pymod ((state.dancers did).facing +
          (pymod (target.facing - (state.dancers did).facing + 180) 360 - 180) *
            easing ((i : ℝ) / (n_frames b0 b1 Δ : ℝ))) 360,
        vx := (state.dancers did).vx, vy := (state.dancers did).vy } := by
  simp [linear_frame, h]

lemma linear_frame0_dancer (state : WorldState) (targets : DancerID → Option DancerState)
    (b0 b1 Δ : ℝ) (hs : List HandConnection) (i : ℕ) (did : DancerID)
    (target : DancerState) (h : targets did = some target)
    (hfac0 : 0 ≤ (state.dancers did).facing) (hfac1 : (state.dancers did).facing < 360) :
    (linear_frame state targets b0 b1 Δ hs _ease_in_out 0).dancers did = state.dancers did := by
  rw [linear_frame_dancer_some state targets b0 b1 Δ hs _ease_in_out 0 did target h]
  rw [frame_t_zero, ease_zero, lerp_zero, lerp_zero, mul_zero, add_zero,
    pymod_eq_self (by norm_num) hfac0 hfac1]

lemma linear_frame_last_dancer (state : WorldState) (targets : DancerID → Option DancerState)
    (b0 b1 Δ : ℝ) (hs : List HandConnection) (did : DancerID)
    (target : DancerState) (h : targets did = some target) :
    (linear_frame state targets b0 b1 Δ hs _ease_in_out (n_frames b0 b1 Δ)).dancers did =
      { x := target.x, y := target.y, facing := pymod target.facing 360,
        vx := (state.dancers did).vx, vy := (state.dancers did).vy } := by
  rw [linear_frame_dancer_some state targets b0 b1 Δ hs _ease_in_out _ did target h]
  rw [frame_t_one, ease_one, lerp_one, lerp_one, mul_one, pymod_shortest_arc_lands]

lemma range_map_getLastD {α : Type} (f : ℕ → α) (n : ℕ) (d : α) :
    ((List.range (n + 1)).map f).getLastD d = f n := by
  rw [List.getLastD_eq_getLast?, range_map_getLast?]
  rfl

lemma n_frames_eval {b0 b1 Δ : ℝ} (k : ℕ) (h : (b1 - b0) / Δ = (k : ℝ)) :
    n_frames b0 b1 Δ = max 1 k := by
  rw [n_frames, h]
  norm_num

lemma max_one_add_one (k : ℕ) : max 1 k + 1 = max (k + 1) 2 := by
  omega

/-- C7: each of the three primitive generators, on beat range [b0,b1] with
b0 < b1 and sampling step Δ > 0, returns exactly floor((b1-b0)/Δ)+1
keyframes (with a minimum of 2 when the range is shorter than the step),
including both endpoint beats: the first frame carries beat b0 and the last
frame carries beat b1. -/
theorem C7_frame_count
    (state : WorldState) (ps : List DancerID) (c : ℝ × ℝ) (θ : ℝ)
    (targets : DancerID → Option DancerState) (parts : DancerID × DancerID) (rev cd : ℝ)
    (hs : List HandConnection) (fc : Bool)
    (b0 b1 Δ : ℝ) (hb : b0 < b1) (hΔ : 0 < Δ) :
    (circular_arc state ps c θ b0 b1 Δ hs fc).length = max (⌊(b1 - b0) / Δ⌋.toNat + 1) 2 ∧
    (linear state targets b0 b1 Δ hs _ease_in_out).length = max (⌊(b1 - b0) / Δ⌋.toNat + 1) 2 ∧
    (orbit state parts rev b0 b1 Δ cd hs).length = max (⌊(b1 - b0) / Δ⌋.toNat + 1) 2 ∧
    2 ≤ (circular_arc state ps c θ b0 b1 Δ hs fc).length ∧
    2 ≤ (linear state targets b0 b1 Δ hs _ease_in_out).length ∧
    2 ≤ (orbit state parts rev b0 b1 Δ cd hs).length ∧
    ((circular_arc state ps c θ b0 b1 Δ hs fc).headD default).beat = b0 ∧
    ((circular_arc state ps c θ b0 b1 Δ hs fc).getLastD default).beat = b1 ∧
    ((linear state targets b0 b1 Δ hs _ease_in_out).headD default).beat = b0 ∧
    ((linear state targets b0 b1 Δ hs _ease_in_out).getLastD default).beat = b1 ∧
    ((orbit state parts rev b0 b1 Δ cd hs).headD default).beat = b0 ∧
    ((orbit state parts rev b0 b1 Δ cd hs).getLastD default).beat = b1 := by
  have hlen : n_frames b0 b1 Δ + 1 = max (⌊(b1 - b0) / Δ⌋.toNat + 1) 2 := by
    rw [n_frames, max_one_add_one]
  refine ⟨?_, ?_, ?_, ?_, ?_, ?_, ?_, ?_, ?_, ?_, ?_, ?_⟩
  · rw [circular_arc, range_map_length, hlen]
  · rw [linear, range_map_length, hlen]
  · rw [orbit, range_map_length, hlen]
  · rw [circular_arc, range_map_length]
    omega
  · rw [linear, range_map_length]
    omega
  · rw [orbit, range_map_length]
    omega
  · rw [circular_arc, range_map_headD, circular_arc_frame_beat, frame_t_zero]
    ring
  · rw [circular_arc, range_map_getLastD, circular_arc_frame_beat, frame_t_one]
    ring
  · rw [linear, range_map_headD, linear_frame_beat, frame_t_zero]
    ring
  · rw [linear, range_map_getLastD, linear_frame_beat, frame_t_one]
    ring
  · rw [orbit, range_map_headD, orbit_frame_beat, frame_t_zero]
    ring
  · rw [orbit, range_map_getLastD, orbit_frame_beat, frame_t_one]
    ring

/-- Witness for C7 at a concrete input: beat range [0,1] with step 0.4
(3 frames), every hypothesis discharged concretely. -/
theorem C7_frame_count_witness :
    (0 : ℝ) < 1 ∧ (0 : ℝ) < 0.4 ∧
    ((circular_arc (_improper 0) [] (0, 0) 90 0 1 0.4 [] true).length =
        max (⌊((1 : ℝ) - 0) / 0.4⌋.toNat + 1) 2 ∧
      (linear (_improper 0) (fun _ => none) 0 1 0.4 [] _ease_in_out).length =
        max (⌊((1 : ℝ) - 0) / 0.4⌋.toNat + 1) 2 ∧
      (orbit (_improper 0) (DancerID.UP_LARK, DancerID.UP_ROBIN) 1 0 1 0.4 0.2 []).length =
        max (⌊((1 : ℝ) - 0) / 0.4⌋.toNat + 1) 2 ∧
      2 ≤ (circular_arc (_improper 0) [] (0, 0) 90 0 1 0.4 [] true).length ∧
      2 ≤ (linear (_improper 0) (fun _ => none) 0 1 0.4 [] _ease_in_out).length ∧
      2 ≤ (orbit (_improper 0) (DancerID.UP_LARK, DancerID.UP_ROBIN) 1 0 1 0.4 0.2 []).length ∧
      ((circular_arc (_improper 0) [] (0, 0) 90 0 1 0.4 [] true).headD default).beat = 0 ∧
      ((circular_arc (_improper 0) [] (0, 0) 90 0 1 0.4 [] true).getLastD default).beat = 1 ∧
      ((linear (_improper 0) (fun _ => none) 0 1 0.4 [] _ease_in_out).headD default).beat = 0 ∧
      ((linear (_improper 0) (fun _ => none) 0 1 0.4 [] _ease_in_out).getLastD default).beat = 1 ∧
      ((orbit (_improper 0) (DancerID.UP_LARK, DancerID.UP_ROBIN) 1 0 1 0.4 0.2 []).headD default).beat = 0 ∧
      ((orbit (_improper 0) (DancerID.UP_LARK, DancerID.UP_ROBIN) 1 0 1 0.4 0.2 []).getLastD default).beat = 1) :=
  ⟨by norm_num, by norm_num,
    C7_frame_count (_improper 0) [] (0, 0) 90 (fun _ => none)
      (DancerID.UP_LARK, DancerID.UP_ROBIN) 1 0.2 [] true 0 1 0.4
      (by norm_num) (by norm_num)⟩

/-- C8: in the linear generator every frame's facing for a moving dancer is
the start facing plus the shortest-arc delta ((target - start + 180) mod 360
- 180) scaled by the eased t and re-wrapped to [0,360); in particular from
350° to 10° the delta is +20° (through 360/0), never 340° the long way, and
the final frame lands exactly on the target facing modulo 360. -/
theorem C8_facing_shortest_arc
    (state : WorldState) (targets : DancerID → Option DancerState)
    (b0 b1 Δ : ℝ) (hs : List HandConnection) (i : ℕ) (did : DancerID)
    (target : DancerState) (h : targets did = some target) (hi : i ≤ n_frames b0 b1 Δ) :
    (((linear state targets b0 b1 Δ hs _ease_in_out).getD i default).dancers did).facing =
      pymod ((state.dancers did).facing +
        (pymod (target.facing - (state.dancers did).facing + 180) 360 - 180) *
          _ease_in_out ((i : ℝ) / (n_frames b0 b1 Δ : ℝ))) 360 ∧
    pymod ((10 : ℝ) - 350 + 180) 360 - 180 = 20 ∧
    (((linear state targets b0 b1 Δ hs _ease_in_out).getD (n_frames b0 b1 Δ) default).dancers
        did).facing = pymod target.facing 360 := by
  have hgd : (linear state targets b0 b1 Δ hs _ease_in_out).getD i default =
      linear_frame state targets b0 b1 Δ hs _ease_in_out i := by
    rw [linear]
    exact range_map_getD _ _ _ (by omega) _
  have hgd2 : (linear state targets b0 b1 Δ hs _ease_in_out).getD (n_frames b0 b1 Δ) default =
      linear_frame state targets b0 b1 Δ hs _ease_in_out (n_frames b0 b1 Δ) := by
    rw [linear]
    exact range_map_getD _ _ _ (by omega) _
  refine ⟨?_, ?_, ?_⟩
  · rw [hgd, linear_frame_dancer_some state targets b0 b1 Δ hs _ease_in_out i did target h]
  · have hfl : ⌊((10 : ℝ) - 350 + 180) / 360⌋ = -1 := by
      rw [Int.floor_eq_iff]
      constructor <;> norm_num
    rw [pymod, hfl]
    norm_num
  · rw [hgd2, linear_frame_last_dancer state targets b0 b1 Δ hs did target h]

/-- Witness for C8: interpolating the UP_LARK facing from 350° to 10° over
beats [0,2], checked at frame 0. -/
theorem C8_facing_shortest_arc_witness :
    ((fun d => if d = DancerID.UP_LARK then
        some ({ x := 0, y := 0, facing := 10 } : DancerState) else none)
      DancerID.UP_LARK = some ({ x := 0, y := 0, facing := 10 } : DancerState)) ∧
    0 ≤ n_frames 0 2 0.25 ∧
    ((((linear
          { beat := 0,
            dancers := fun _ => { x := 0, y := 0.5, facing := 350 }, hands := [] }
          (fun d => if d = DancerID.UP_LARK then
            some ({ x := 0, y := 0, facing := 10 } : DancerState) else none)
          0 2 0.25 [] _ease_in_out).getD 0 default).dancers DancerID.UP_LARK).facing =
      pymod (350 + (pymod ((10 : ℝ) - 350 + 180) 360 - 180) *
        _ease_in_out ((0 : ℝ) / (n_frames 0 2 0.25 : ℝ))) 360 ∧
      pymod ((10 : ℝ) - 350 + 180) 360 - 180 = 20 ∧
      ((((linear
          { beat := 0,
            dancers := fun _ => { x := 0, y := 0.5, facing := 350 }, hands := [] }
          (fun d => if d = DancerID.UP_LARK then
            some ({ x := 0, y := 0, facing := 10 } : DancerState) else none)
          0 2 0.25 [] _ease_in_out).getD (n_frames 0 2 0.25) default).dancers
        DancerID.UP_LARK).facing = pymod 10 360)) := by
  have h := C8_facing_shortest_arc
    { beat := 0, dancers := fun _ => { x := 0, y := 0.5, facing := 350 }, hands := [] }
    (fun d => if d = DancerID.UP_LARK then
      some ({ x := 0, y := 0, facing := 10 } : DancerState) else none)
    0 2 0.25 [] 0 DancerID.UP_LARK { x := 0, y := 0, facing := 10 }
    (by simp) (by omega)
  refine ⟨by simp, by omega, ?_, h.2.1, ?_⟩
  · simpa using h.1
  · simpa using h.2.2

/-- C6: in the orbit generator the angular offset at normalized time t is
exactly t times the total sweep (no easing), and the distance of each
participant from the shared midpoint follows the orbit_radius schedule:
the initial half-separation at t=0 and t=1, linear contraction to
closing_distance on [0,0.1], constant closing_distance on [0.1,0.9], linear
expansion back on [0.9,1]. -/
theorem C6_orbit_radius_profile
    (state : WorldState) (parts : DancerID × DancerID) (rev b0 b1 Δ cd : ℝ)
    (hs : List HandConnection) (i : ℕ) (did : DancerID)
    (hdid : did = parts.1 ∨ did = parts.2) (hcd : 0 ≤ cd) (hi : i ≤ n_frames b0 b1 Δ) :
    (((orbit state parts rev b0 b1 Δ cd hs).getD i default).dancers did).x =
      ((state.dancers parts.1).x + (state.dancers parts.2).x) / 2 +
        orbit_radius (hypot ((state.dancers parts.1).x - (state.dancers parts.2).x)
            ((state.dancers parts.1).y - (state.dancers parts.2).y) / 2) cd
          ((i : ℝ) / (n_frames b0 b1 Δ : ℝ)) *
        Real.sin (atan2
            ((state.dancers did).x - ((state.dancers parts.1).x + (state.dancers parts.2).x) / 2)
            ((state.dancers did).y - ((state.dancers parts.1).y + (state.dancers parts.2).y) / 2) +
          ((i : ℝ) / (n_frames b0 b1 Δ : ℝ)) * (rev * 2 * π)) ∧
    (((orbit state parts rev b0 b1 Δ cd hs).getD i default).dancers did).y =
      ((state.dancers parts.1).y + (state.dancers parts.2).y) / 2 +
        orbit_radius (hypot ((state.dancers parts.1).x - (state.dancers parts.2).x)
            ((state.dancers parts.1).y - (state.dancers parts.2).y) / 2) cd
          ((i : ℝ) / (n_frames b0 b1 Δ : ℝ)) *
        Real.cos (atan2
            ((state.dancers did).x - ((state.dancers parts.1).x + (state.dancers parts.2).x) / 2)
            ((state.dancers did).y - ((state.dancers parts.1).y + (state.dancers parts.2).y) / 2) +
          ((i : ℝ) / (n_frames b0 b1 Δ : ℝ)) * (rev * 2 * π)) ∧
    hypot
      ((((orbit state parts rev b0 b1 Δ cd hs).getD i default).dancers did).x -
        ((state.dancers parts.1).x + (state.dancers parts.2).x) / 2)
      ((((orbit state parts rev b0 b1 Δ cd hs).getD i default).dancers did).y -
        ((state.dancers parts.1).y + (state.dancers parts.2).y) / 2) =
      orbit_radius (hypot ((state.dancers parts.1).x - (state.dancers parts.2).x)
          ((state.dancers parts.1).y - (state.dancers parts.2).y) / 2) cd
        ((i : ℝ) / (n_frames b0 b1 Δ : ℝ)) ∧
    (∀ ir : ℝ, orbit_radius ir cd 0 = ir) ∧
    (∀ ir : ℝ, orbit_radius ir cd 1 = ir) ∧
    (∀ ir s : ℝ, 0 ≤ s → s ≤ 0.1 → orbit_radius ir cd s = _lerp ir cd (s / 0.1)) ∧
    (∀ ir s : ℝ, 0.1 ≤ s → s ≤ 0.9 → orbit_radius ir cd s = cd) ∧
    (∀ ir s : ℝ, 0.9 ≤ s → s ≤ 1 → orbit_radius ir cd s = _lerp cd ir ((s - 0.9) / 0.1)) := by
  have hgd : (orbit state parts rev b0 b1 Δ cd hs).getD i default =
      orbit_frame state parts rev b0 b1 Δ cd hs i := by
    rw [orbit]
    exact range_map_getD _ _ _ (by omega) _
  obtain ⟨hx, hy⟩ := orbit_frame_pos state parts rev b0 b1 Δ cd hs i did hdid
  refine ⟨?_, ?_, ?_, ?_, ?_, ?_, ?_, ?_⟩
  · rw [hgd, hx]
  · rw [hgd, hy]
  · rw [hgd]
    exact orbit_frame_dist state parts rev b0 b1 Δ cd hs i did hdid hcd hi
  · intro ir
    exact orbit_radius_zero ir cd
  · intro ir
    exact orbit_radius_one ir cd
  · intro ir s h1 h2
    exact orbit_radius_early ir cd s h1 h2
  · intro ir s h1 h2
    exact orbit_radius_mid ir cd s h1 h2
  · intro ir s h1 h2
    exact orbit_radius_late ir cd s h1 h2

lemma n_frames_0_8 : n_frames 0 8 0.25 = 32 := by
  rw [n_frames_eval 32 (by norm_num)]
  omega

/-- Witness for C6: orbit of UP_LARK and DOWN_ROBIN from the improper
formation with closing_distance 0.15 over beats [0,8]; at the midpoint frame
(i = 16 of 32, t = 1/2) the distance from the shared midpoint is exactly
0.15, and at frames 0 and 32 the radius functions return the initial
half-separation. -/
theorem C6_orbit_radius_profile_witness :
    ((DancerID.UP_LARK : DancerID) = (DancerID.UP_LARK, DancerID.DOWN_ROBIN).1 ∨
      (DancerID.UP_LARK : DancerID) = (DancerID.UP_LARK, DancerID.DOWN_ROBIN).2) ∧
    (0 : ℝ) ≤ 0.15 ∧ 16 ≤ n_frames 0 8 0.25 ∧
    hypot
      ((((orbit (_improper 0) (DancerID.UP_LARK, DancerID.DOWN_ROBIN) 2 0 8 0.25 0.15 []).getD
          16 default).dancers DancerID.UP_LARK).x -
        (((_improper 0).dancers DancerID.UP_LARK).x + ((_improper 0).dancers DancerID.DOWN_ROBIN).x) / 2)
      ((((orbit (_improper 0) (DancerID.UP_LARK, DancerID.DOWN_ROBIN) 2 0 8 0.25 0.15 []).getD
          16 default).dancers DancerID.UP_LARK).y -
        (((_improper 0).dancers DancerID.UP_LARK).y + ((_improper 0).dancers DancerID.DOWN_ROBIN).y) / 2) =
      0.15 := by
  have h := C6_orbit_radius_profile (_improper 0) (DancerID.UP_LARK, DancerID.DOWN_ROBIN)
    2 0 8 0.25 0.15 [] 16 DancerID.UP_LARK (Or.inl rfl) (by norm_num)
    (by rw [n_frames_0_8]; omega)
  refine ⟨Or.inl rfl, by norm_num, by rw [n_frames_0_8]; omega, ?_⟩
  rw [h.2.2.1]
  have ht : ((16 : ℕ) : ℝ) / ((n_frames 0 8 0.25 : ℕ) : ℝ) = 0.5 := by
    rw [n_frames_0_8]
    norm_num
  rw [ht]
  exact h.2.2.2.2.2.2.1 _ 0.5 (by norm_num) (by norm_num)

lemma circular_arc_headD (state : WorldState) (ps : List DancerID) (c : ℝ × ℝ)
    (θ b0 b1 Δ : ℝ) (hs : List HandConnection) (fc : Bool) :
    (circular_arc state ps c θ b0 b1 Δ hs fc).headD default =
      circular_arc_frame state ps c θ b0 b1 Δ hs fc 0 := by
  rw [circular_arc, range_map_headD]

lemma linear_headD (state : WorldState) (targets : DancerID → Option DancerState)
    (b0 b1 Δ : ℝ) (hs : List HandConnection) (easing : ℝ → ℝ) :
    (linear state targets b0 b1 Δ hs easing).headD default =
      linear_frame state targets b0 b1 Δ hs easing 0 := by
  rw [linear, range_map_headD]

lemma orbit_headD (state : WorldState) (parts : DancerID × DancerID)
    (rev b0 b1 Δ cd : ℝ) (hs : List HandConnection) :
    (orbit state parts rev b0 b1 Δ cd hs).headD default =
      orbit_frame state parts rev b0 b1 Δ cd hs 0 := by
  rw [orbit, range_map_headD]

/-- The last produced frame of _allemande agrees (for every dancer) with the
end state the figure reports: participants are copied from the last frame,
non-participants are untouched on both sides. -/
lemma allemande_last_eq_end (ctx : FigureContext) (hand : String) (cw : Bool)
    (did : DancerID) (last : Keyframe)
    (hlast : (_allemande ctx hand cw).keyframes.getLast? = some last) :
    last.dancers did = (_allemande ctx hand cw).end_state.dancers did := by
  rcases hps : ctx.participants with _ | ⟨d1, _ | ⟨d2, _ | ⟨d3, rest⟩⟩⟩
  · rw [_allemande, hps] at hlast
    simp at hlast
  · rw [_allemande, hps] at hlast
    simp at hlast
  · have hkey : (_allemande ctx hand cw).keyframes =
        circular_arc ctx.start_state [d1, d2]
          (world_midpoint (ctx.start_state.dancers d1) (ctx.start_state.dancers d2))
          (if cw then ctx.params.turns.getD 0.5 * 360 else -(ctx.params.turns.getD 0.5 * 360))
          ctx.beat_start ctx.beat_end ctx.beats_per_frame
          [HandConnection.mk d1 (if hand = "right" then Hand.RIGHT else Hand.LEFT) d2
            (if hand = "right" then Hand.RIGHT else Hand.LEFT)] true := by
      rw [_allemande, hps]
    have hend : (_allemande ctx hand cw).end_state =
        figure_end_from_last ctx.start_state ctx.beat_end [d1, d2]
          (_allemande ctx hand cw).keyframes := by
      conv_lhs => rw [_allemande, hps]
      rw [hkey]
    rw [hend, figure_end_from_last, hlast]
    by_cases hdid : did ∈ [d1, d2]
    · simp [hdid]
    · simp only [if_neg hdid]
      rw [hkey] at hlast
      rw [circular_arc, range_map_getLast?] at hlast
      have hlast' := Option.some.inj hlast
      rw [← hlast']
      exact circular_arc_frame_nonparticipant _ _ _ _ _ _ _ _ _ _ _ hdid
  · rw [_allemande, hps] at hlast
    simp at hlast

/-- The last produced frame of swing agrees (for every dancer) with the end
state the figure reports: the two participants are snapped to the analytic
end poses in both, any other dancer is untouched in both. -/
lemma swing_last_eq_end (ctx : FigureContext) (did : DancerID) (last : Keyframe)
    (hlast : (swing ctx).keyframes.getLast? = some last) :
    last.dancers did = (swing ctx).end_state.dancers did := by
  rcases hps : ctx.participants with _ | ⟨d1, _ | ⟨d2, _ | ⟨d3, rest⟩⟩⟩
  · rw [swing, hps] at hlast
    simp at hlast
  · rw [swing, hps] at hlast
    simp at hlast
  · rcases htf : ctx.params.target_facing with _ | tf
    · rw [swing, hps, htf] at hlast
      simp at hlast
    · rcases hec : ctx.params.end_center with _ | ec
      · rw [swing, hps, htf, hec] at hlast
        simp at hlast
      · simp only [swing, hps, htf, hec] at hlast ⊢
        rw [orbit, range_map_getLast?] at hlast
        simp only [List.getLast?_concat] at hlast
        have hM := Option.some.inj hlast
        rw [← hM]
        simp only
        by_cases hrl : did = (if d1.is_lark then (d1, d2) else (d2, d1)).2 ∨
            did = (if d1.is_lark then (d1, d2) else (d2, d1)).1
        · rw [if_pos hrl]
        · rw [if_neg hrl]
          push_neg at hrl
          obtain ⟨hr, hl⟩ := hrl
          have hd1 : did ≠ d1 := by
            by_cases hlk : d1.is_lark
            · intro h
              exact hl (by rw [if_pos hlk, h])
            · intro h
              exact hr (by rw [if_neg hlk, h])
          have hd2 : did ≠ d2 := by
            by_cases hlk : d1.is_lark
            · intro h
              exact hr (by rw [if_pos hlk, h])
            · intro h
              exact hl (by rw [if_neg hlk, h])
          rw [orbit_frame_nonparticipant _ _ _ _ _ _ _ _ _ _ hd1 hd2]
          rw [if_neg hr, if_neg hl]
  · rw [swing, hps] at hlast
    simp at hlast

lemma range_map_tail_getLast? {α : Type} (f : ℕ → α) (n : ℕ) (hn : 1 ≤ n) :
    (((List.range (n + 1)).map f).tail).getLast? = some (f n) := by
  obtain ⟨m, rfl⟩ : ∃ m, n = m + 1 := ⟨n - 1, by omega⟩
  rw [List.range_succ_eq_map, List.map_cons, List.tail_cons, List.map_map]
  rw [range_map_getLast?]
  rfl

lemma range_map_tail_ne_nil {α : Type} (f : ℕ → α) (n : ℕ) (hn : 1 ≤ n) :
    ((List.range (n + 1)).map f).tail ≠ [] := by
  obtain ⟨m, rfl⟩ : ∃ m, n = m + 1 := ⟨n - 1, by omega⟩
  rw [List.range_succ_eq_map, List.map_cons, List.tail_cons]
  simp

/-- The last produced frame of balance agrees in pose (x, y, facing) with the
end state the figure reports — the start state at the later beat — provided
the start facings are normalised to [0,360). -/
lemma balance_last_eq_end (ctx : FigureContext) (did : DancerID) (last : Keyframe)
    (hlast : (balance ctx).keyframes.getLast? = some last)
    (hf0 : 0 ≤ (ctx.start_state.dancers did).facing)
    (hf1 : (ctx.start_state.dancers did).facing < 360) :
    (last.dancers did).x = ((balance ctx).end_state.dancers did).x ∧
    (last.dancers did).y = ((balance ctx).end_state.dancers did).y ∧
    (last.dancers did).facing = ((balance ctx).end_state.dancers did).facing := by
  simp only [balance] at hlast ⊢
  set state := ctx.start_state with hstate
  set pairs := balance_pairs state ctx.participants with hpairs
  set targets_in := balance_targets_in state (ctx.params.step_distance.getD 0.3) pairs
    with htargets
  set mid_beat := (ctx.beat_start + ctx.beat_end) / 2 with hmid
  have hn2 : 1 ≤ n_frames mid_beat ctx.beat_end ctx.beats_per_frame :=
    n_frames_pos _ _ _
  simp only [linear] at hlast
  rw [List.getLast?_append_of_ne_nil _ (range_map_tail_ne_nil _ _ hn2)] at hlast
  rw [range_map_tail_getLast? _ _ hn2] at hlast
  have hM := Option.some.inj hlast
  rw [← hM]
  rcases ht : targets_in did with _ | target
  · have hback : (fun dd => (targets_in dd).map (fun _ => state.dancers dd)) did = none := by
      simp [ht]
    rw [linear_frame_dancer_none _ _ _ _ _ _ _ _ _ hback]
    rw [range_map_getLast?]
    simp only
    rw [linear_frame_dancer_none _ _ _ _ _ _ _ _ _ ht]
    exact ⟨rfl, rfl, rfl⟩
  · have hback : (fun dd => (targets_in dd).map (fun _ => state.dancers dd)) did =
        some (state.dancers did) := by
      simp [ht]
    rw [linear_frame_last_dancer _ _ _ _ _ _ _ _ hback]
    refine ⟨rfl, rfl, ?_⟩
    exact pymod_eq_self (by norm_num) hf0 hf1

lemma atan2_zero_of_nonneg (x : ℝ) (h : 0 ≤ x) : atan2 0 x = 0 := by
  rw [atan2, show (⟨x, 0⟩ : ℂ) = (x : ℂ) by apply Complex.ext <;> simp]
  exact Complex.arg_ofReal_of_nonneg h

lemma pymod_zero_left (m : ℝ) : pymod 0 m = 0 := by
  simp [pymod]

/-- A two-dancer state used to exhibit the face-center facing discontinuity:
UP_LARK due south of the pivot (0,0) but facing east (90°). -/
def arc_face_demo_state : WorldState :=
  { beat := 0,
    dancers := fun did =>
      match did with
      | DancerID.UP_LARK => { x := 0, y := -0.5, facing := 90 }
      | DancerID.DOWN_LARK => { x := 0, y := 0.5, facing := 270 }
      | DancerID.UP_ROBIN => { x := 1, y := -0.5, facing := 0 }
      | DancerID.DOWN_ROBIN => { x := 1, y := 0.5, facing := 180 } }

/-- C1 counterexample: the first frame of a face-center circular_arc does
not reproduce the input snapshot's poses.  UP_LARK enters facing 90° but the
first produced frame recomputes its facing toward the pivot, yielding 0°. -/
theorem C1_counterexample :
    (((circular_arc arc_face_demo_state [DancerID.UP_LARK, DancerID.DOWN_LARK] (0, 0) 180
        0 4 0.25 [] true).headD default).dancers DancerID.UP_LARK).facing = 0 ∧
    (arc_face_demo_state.dancers DancerID.UP_LARK).facing = 90 ∧
    (((circular_arc arc_face_demo_state [DancerID.UP_LARK, DancerID.DOWN_LARK] (0, 0) 180
        0 4 0.25 [] true).headD default).dancers DancerID.UP_LARK).facing ≠
      (arc_face_demo_state.dancers DancerID.UP_LARK).facing := by
  have hface : (((circular_arc arc_face_demo_state [DancerID.UP_LARK, DancerID.DOWN_LARK]
      (0, 0) 180 0 4 0.25 [] true).headD default).dancers DancerID.UP_LARK).facing = 0 := by
    rw [circular_arc_headD]
    rw [circular_arc_frame0_face_center _ _ _ _ _ _ _ _ _ (by simp)]
    have h1 : ((0, 0) : ℝ × ℝ).1 - (arc_face_demo_state.dancers DancerID.UP_LARK).x = 0 := by
      simp [arc_face_demo_state]
    have h2 : ((0, 0) : ℝ × ℝ).2 - (arc_face_demo_state.dancers DancerID.UP_LARK).y = 0.5 := by
      norm_num [arc_face_demo_state]
    rw [h1, h2, atan2_zero_of_nonneg 0.5 (by norm_num)]
    rw [show degrees 0 = 0 by simp [degrees]]
    exact pymod_zero_left 360
  refine ⟨hface, by norm_num [arc_face_demo_state], ?_⟩
  rw [hface]
  norm_num [arc_face_demo_state]

lemma orbit_half_sep_eq (state : WorldState) (parts : DancerID × DancerID) (did : DancerID)
    (hdid : did = parts.1 ∨ did = parts.2) :
    hypot ((state.dancers parts.1).x - (state.dancers parts.2).x)
        ((state.dancers parts.1).y - (state.dancers parts.2).y) / 2 =
      hypot ((state.dancers did).x - ((state.dancers parts.1).x + (state.dancers parts.2).x) / 2)
        ((state.dancers did).y - ((state.dancers parts.1).y + (state.dancers parts.2).y) / 2) := by
  rcases hdid with h | h <;> subst h
  · rw [← hypot_half]
    congr 1 <;> ring
  · rw [show hypot ((state.dancers parts.1).x - (state.dancers parts.2).x)
        ((state.dancers parts.1).y - (state.dancers parts.2).y) =
        hypot ((state.dancers parts.2).x - (state.dancers parts.1).x)
        ((state.dancers parts.2).y - (state.dancers parts.1).y) by
      rw [hypot, hypot]
      ring_nf]
    rw [← hypot_half]
    congr 1 <;> ring

lemma orbit_frame0_facing (state : WorldState) (parts : DancerID × DancerID)
    (rev b0 b1 Δ cd : ℝ) (hs : List HandConnection) (did : DancerID)
    (hdid : did = parts.1 ∨ did = parts.2) :
    ((orbit_frame state parts rev b0 b1 Δ cd hs 0).dancers did).facing =
      pymod (degrees (atan2
        (((state.dancers parts.1).x + (state.dancers parts.2).x) / 2 - (state.dancers did).x)
        (((state.dancers parts.1).y + (state.dancers parts.2).y) / 2 - (state.dancers did).y)))
        360 := by
  by_cases h2 : did = parts.2
  · simp only [orbit_frame, if_pos h2, frame_t_zero, zero_mul, add_zero, orbit_radius_zero]
    have hh := orbit_half_sep_eq state parts parts.2 (Or.inr rfl)
    rw [hh, hypot_mul_sin_atan2, hypot_mul_cos_atan2, h2]
    ring_nf
  · rcases hdid with h1 | h1
    · simp only [orbit_frame, if_neg h2, if_pos h1, frame_t_zero, zero_mul, add_zero,
        orbit_radius_zero]
      have hh := orbit_half_sep_eq state parts parts.1 (Or.inl rfl)
      rw [hh, hypot_mul_sin_atan2, hypot_mul_cos_atan2, h1]
      ring_nf
    · exact absurd h1 h2

lemma getLast?_of_ne_nil {α : Type} [Inhabited α] (l : List α) (h : l ≠ []) :
    l.getLast? = some (l.getLastD default) := by
  rw [List.getLastD_eq_getLast?]
  cases hl : l.getLast? with
  | none => exact absurd (List.getLast?_eq_none_iff.mp hl) h
  | some a => rfl

/-- C1 (amended): the first frame of each generator reproduces the input
snapshot's positions for every agent and the full pose of every
non-participant; the facing is reproduced by maintain-facing circular_arc
and by linear (for facings normalised to [0,360)), while the face-center
modes (circular_arc with face_center, orbit) recompute the first frame's
facing to point at the pivot/shared midpoint; and the last produced frame
agrees with the end state the enclosing figure reports (allemande and swing
for every dancer, balance in pose for normalised facings). -/
theorem C1_endpoint_continuity_amended :
    (∀ (state : WorldState) (ps : List DancerID) (c : ℝ × ℝ) (θ b0 b1 Δ : ℝ)
        (hs : List HandConnection) (fc : Bool) (did : DancerID), did ∈ ps →
      (((circular_arc state ps c θ b0 b1 Δ hs fc).headD default).dancers did).x =
        (state.dancers did).x ∧
      (((circular_arc state ps c θ b0 b1 Δ hs fc).headD default).dancers did).y =
        (state.dancers did).y) ∧
    (∀ (state : WorldState) (ps : List DancerID) (c : ℝ × ℝ) (θ b0 b1 Δ : ℝ)
        (hs : List HandConnection) (did : DancerID), did ∈ ps →
      ((circular_arc state ps c θ b0 b1 Δ hs false).headD default).dancers did =
        state.dancers did) ∧
    (∀ (state : WorldState) (ps : List DancerID) (c : ℝ × ℝ) (θ b0 b1 Δ : ℝ)
        (hs : List HandConnection) (fc : Bool) (did : DancerID), did ∉ ps →
      ((circular_arc state ps c θ b0 b1 Δ hs fc).headD default).dancers did =
        state.dancers did) ∧
    (∀ (state : WorldState) (ps : List DancerID) (c : ℝ × ℝ) (θ b0 b1 Δ : ℝ)
        (hs : List HandConnection) (did : DancerID), did ∈ ps →
      (((circular_arc state ps c θ b0 b1 Δ hs true).headD default).dancers did).facing =
        pymod (degrees (atan2 (c.1 - (state.dancers did).x) (c.2 - (state.dancers did).y)))
          360) ∧
    (∀ (state : WorldState) (targets : DancerID → Option DancerState) (b0 b1 Δ : ℝ)
        (hs : List HandConnection) (did : DancerID), targets did = none →
      ((linear state targets b0 b1 Δ hs _ease_in_out).headD default).dancers did =
        state.dancers did) ∧
    (∀ (state : WorldState) (targets : DancerID → Option DancerState) (b0 b1 Δ : ℝ)
        (hs : List HandConnection) (did : DancerID) (target : DancerState),
        targets did = some target →
        0 ≤ (state.dancers did).facing → (state.dancers did).facing < 360 →
      ((linear state targets b0 b1 Δ hs _ease_in_out).headD default).dancers did =
        state.dancers did) ∧
    (∀ (state : WorldState) (parts : DancerID × DancerID) (rev b0 b1 Δ cd : ℝ)
        (hs : List HandConnection) (did : DancerID), did = parts.1 ∨ did = parts.2 →
      (((orbit state parts rev b0 b1 Δ cd hs).headD default).dancers did).x =
        (state.dancers did).x ∧
      (((orbit state parts rev b0 b1 Δ cd hs).headD default).dancers did).y =
        (state.dancers did).y ∧
      (((orbit state parts rev b0 b1 Δ cd hs).headD default).dancers did).facing =
        pymod (degrees (atan2
          (((state.dancers parts.1).x + (state.dancers parts.2).x) / 2 - (state.dancers did).x)
          (((state.dancers parts.1).y + (state.dancers parts.2).y) / 2 -
            (state.dancers did).y))) 360) ∧
    (∀ (state : WorldState) (parts : DancerID × DancerID) (rev b0 b1 Δ cd : ℝ)
        (hs : List HandConnection) (did : DancerID), did ≠ parts.1 → did ≠ parts.2 →
      ((orbit state parts rev b0 b1 Δ cd hs).headD default).dancers did =
        state.dancers did) ∧
    (∀ (ctx : FigureContext) (hand : String) (cw : Bool) (did : DancerID) (last : Keyframe),
        (_allemande ctx hand cw).keyframes.getLast? = some last →
      last.dancers did = (_allemande ctx hand cw).end_state.dancers did) ∧
    (∀ (ctx : FigureContext) (did : DancerID) (last : Keyframe),
        (swing ctx).keyframes.getLast? = some last →
      last.dancers did = (swing ctx).end_state.dancers did) ∧
    (∀ (ctx : FigureContext) (did : DancerID) (last : Keyframe),
        (balance ctx).keyframes.getLast? = some last →
        0 ≤ (ctx.start_state.dancers did).facing →
        (ctx.start_state.dancers did).facing < 360 →
      (last.dancers did).x = ((balance ctx).end_state.dancers did).x ∧
      (last.dancers did).y = ((balance ctx).end_state.dancers did).y ∧
      (last.dancers did).facing = ((balance ctx).end_state.dancers did).facing) := by
  refine ⟨?_, ?_, ?_, ?_, ?_, ?_, ?_, ?_, ?_, ?_, ?_⟩
  · intro state ps c θ b0 b1 Δ hs fc did hdid
    rw [circular_arc_headD]
    exact ⟨circular_arc_frame0_x state ps c θ b0 b1 Δ hs fc did hdid,
      circular_arc_frame0_y state ps c θ b0 b1 Δ hs fc did hdid⟩
  · intro state ps c θ b0 b1 Δ hs did hdid
    rw [circular_arc_headD]
    exact circular_arc_frame0_maintain state ps c θ b0 b1 Δ hs did hdid
  · intro state ps c θ b0 b1 Δ hs fc did hdid
    rw [circular_arc_headD]
    exact circular_arc_frame_nonparticipant state ps c θ b0 b1 Δ hs fc 0 did hdid
  · intro state ps c θ b0 b1 Δ hs did hdid
    rw [circular_arc_headD]
    exact circular_arc_frame0_face_center state ps c θ b0 b1 Δ hs did hdid
  · intro state targets b0 b1 Δ hs did htgt
    rw [linear_headD]
    exact linear_frame_dancer_none state targets b0 b1 Δ hs _ease_in_out 0 did htgt
  · intro state targets b0 b1 Δ hs did target htgt hf0 hf1
    rw [linear_headD]
    exact linear_frame0_dancer state targets b0 b1 Δ hs 0 did target htgt hf0 hf1
  · intro state parts rev b0 b1 Δ cd hs did hdid
    rw [orbit_headD]
    obtain ⟨hx, hy⟩ := orbit_frame0_pos state parts rev b0 b1 Δ cd hs did hdid
    exact ⟨hx, hy, orbit_frame0_facing state parts rev b0 b1 Δ cd hs did hdid⟩
  · intro state parts rev b0 b1 Δ cd hs did h1 h2
    rw [orbit_headD]
    exact orbit_frame_nonparticipant state parts rev b0 b1 Δ cd hs 0 did h1 h2
  · exact allemande_last_eq_end
  · exact swing_last_eq_end
  · exact balance_last_eq_end

/-- Concrete linear targets used to witness the endpoint-continuity theorem. -/
def c1w_targets : DancerID → Option DancerState :=
  fun d => if d = DancerID.UP_LARK then some { x := 0.3, y := 0.3, facing := 90 } else none

/-- Concrete allemande invocation used to witness endpoint continuity. -/
def c1w_allemande_ctx : FigureContext :=
  { call := { name := "allemande_right", beat_start := 0, beat_end := 4,
              participants := ["neighbors"] },
    start_state := _improper 0,
    participants := [DancerID.UP_LARK, DancerID.DOWN_ROBIN] }

/-- Concrete swing invocation used to witness endpoint continuity. -/
def c1w_swing_ctx : FigureContext :=
  { call := { name := "swing", beat_start := 0, beat_end := 8,
              participants := ["neighbors"],
              params := { target_facing := some 90, end_center := some (0, 0) } },
    start_state := _improper 0,
    participants := [DancerID.UP_LARK, DancerID.DOWN_ROBIN] }

/-- Concrete balance invocation used to witness endpoint continuity. -/
def c1w_balance_ctx : FigureContext :=
  { call := { name := "balance", beat_start := 0, beat_end := 4,
              participants := ["neighbors"] },
    start_state := _improper 0,
    participants := [DancerID.UP_LARK, DancerID.DOWN_ROBIN] }

lemma c1w_allemande_keyframes_ne_nil :
    (_allemande c1w_allemande_ctx "right" true).keyframes ≠ [] := by
  simp only [_allemande, c1w_allemande_ctx]
  rw [circular_arc]
  exact range_map_ne_nil _ _

lemma c1w_swing_keyframes_ne_nil : (swing c1w_swing_ctx).keyframes ≠ [] := by
  simp only [swing, c1w_swing_ctx, FigureContext.params, FigureContext.duration,
    FigureContext.beat_start, FigureContext.beat_end]
  rw [orbit, range_map_getLast?]
  simp

lemma c1w_balance_keyframes_ne_nil : (balance c1w_balance_ctx).keyframes ≠ [] := by
  simp only [balance, c1w_balance_ctx, FigureContext.params, FigureContext.beat_start,
    FigureContext.beat_end]
  intro hcontra
  rcases List.append_eq_nil.mp hcontra with ⟨h1, _⟩
  exact (by rw [linear] at h1; exact range_map_ne_nil _ _ h1 : False)

/-- Witness for C1 (amended), instantiating every part of the theorem at
concrete inputs from the improper formation and discharging each hypothesis
concretely. -/
theorem C1_endpoint_continuity_amended_witness :
    DancerID.UP_LARK ∈ [DancerID.UP_LARK, DancerID.DOWN_ROBIN] ∧
    DancerID.UP_ROBIN ∉ [DancerID.UP_LARK, DancerID.DOWN_ROBIN] ∧
    c1w_targets DancerID.UP_ROBIN = none ∧
    c1w_targets DancerID.UP_LARK = some { x := 0.3, y := 0.3, facing := 90 } ∧
    (0 : ℝ) ≤ ((_improper 0).dancers DancerID.UP_LARK).facing ∧
    ((_improper 0).dancers DancerID.UP_LARK).facing < 360 ∧
    (_allemande c1w_allemande_ctx "right" true).keyframes.getLast? =
      some ((_allemande c1w_allemande_ctx "right" true).keyframes.getLastD default) ∧
    (swing c1w_swing_ctx).keyframes.getLast? =
      some ((swing c1w_swing_ctx).keyframes.getLastD default) ∧
    (balance c1w_balance_ctx).keyframes.getLast? =
      some ((balance c1w_balance_ctx).keyframes.getLastD default) ∧
    ((((circular_arc (_improper 0) [DancerID.UP_LARK, DancerID.DOWN_ROBIN] (0, 0) 180 0 4
        0.25 [] true).headD default).dancers DancerID.UP_LARK).x =
      ((_improper 0).dancers DancerID.UP_LARK).x ∧
    (((circular_arc (_improper 0) [DancerID.UP_LARK, DancerID.DOWN_ROBIN] (0, 0) 180 0 4
        0.25 [] true).headD default).dancers DancerID.UP_LARK).y =
      ((_improper 0).dancers DancerID.UP_LARK).y) ∧
    ((circular_arc (_improper 0) [DancerID.UP_LARK, DancerID.DOWN_ROBIN] (0, 0) 180 0 4
        0.25 [] false).headD default).dancers DancerID.UP_LARK =
      (_improper 0).dancers DancerID.UP_LARK ∧
    ((circular_arc (_improper 0) [DancerID.UP_LARK, DancerID.DOWN_ROBIN] (0, 0) 180 0 4
        0.25 [] true).headD default).dancers DancerID.UP_ROBIN =
      (_improper 0).dancers DancerID.UP_ROBIN ∧
    (((circular_arc (_improper 0) [DancerID.UP_LARK, DancerID.DOWN_ROBIN] (0, 0) 180 0 4
        0.25 [] true).headD default).dancers DancerID.UP_LARK).facing =
      pymod (degrees (atan2 (((0, 0) : ℝ × ℝ).1 - ((_improper 0).dancers DancerID.UP_LARK).x)
        (((0, 0) : ℝ × ℝ).2 - ((_improper 0).dancers DancerID.UP_LARK).y))) 360 ∧
    ((linear (_improper 0) c1w_targets 0 4 0.25 [] _ease_in_out).headD default).dancers
        DancerID.UP_ROBIN = (_improper 0).dancers DancerID.UP_ROBIN ∧
    ((linear (_improper 0) c1w_targets 0 4 0.25 [] _ease_in_out).headD default).dancers
        DancerID.UP_LARK = (_improper 0).dancers DancerID.UP_LARK ∧
    ((((orbit (_improper 0) (DancerID.UP_LARK, DancerID.DOWN_ROBIN) 2 0 8 0.25 0.15
        []).headD default).dancers DancerID.UP_LARK).x =
      ((_improper 0).dancers DancerID.UP_LARK).x ∧
    (((orbit (_improper 0) (DancerID.UP_LARK, DancerID.DOWN_ROBIN) 2 0 8 0.25 0.15
        []).headD default).dancers DancerID.UP_LARK).y =
      ((_improper 0).dancers DancerID.UP_LARK).y ∧
    (((orbit (_improper 0) (DancerID.UP_LARK, DancerID.DOWN_ROBIN) 2 0 8 0.25 0.15
        []).headD default).dancers DancerID.UP_LARK).facing =
      pymod (degrees (atan2
        ((((_improper 0).dancers DancerID.UP_LARK).x +
            ((_improper 0).dancers DancerID.DOWN_ROBIN).x) / 2 -
          ((_improper 0).dancers DancerID.UP_LARK).x)
        ((((_improper 0).dancers DancerID.UP_LARK).y +
            ((_improper 0).dancers DancerID.DOWN_ROBIN).y) / 2 -
          ((_improper 0).dancers DancerID.UP_LARK).y))) 360) ∧
    ((orbit (_improper 0) (DancerID.UP_LARK, DancerID.DOWN_ROBIN) 2 0 8 0.25 0.15
        []).headD default).dancers DancerID.UP_ROBIN =
      (_improper 0).dancers DancerID.UP_ROBIN ∧
    ((_allemande c1w_allemande_ctx "right" true).keyframes.getLastD default).dancers
        DancerID.DOWN_LARK =
      (_allemande c1w_allemande_ctx "right" true).end_state.dancers DancerID.DOWN_LARK ∧
    ((swing c1w_swing_ctx).keyframes.getLastD default).dancers DancerID.UP_LARK =
      (swing c1w_swing_ctx).end_state.dancers DancerID.UP_LARK ∧
    ((((balance c1w_balance_ctx).keyframes.getLastD default).dancers DancerID.UP_LARK).x =
      ((balance c1w_balance_ctx).end_state.dancers DancerID.UP_LARK).x ∧
    (((balance c1w_balance_ctx).keyframes.getLastD default).dancers DancerID.UP_LARK).y =
      ((balance c1w_balance_ctx).end_state.dancers DancerID.UP_LARK).y ∧
    (((balance c1w_balance_ctx).keyframes.getLastD default).dancers DancerID.UP_LARK).facing =
      ((balance c1w_balance_ctx).end_state.dancers DancerID.UP_LARK).facing) := by
  have H := C1_endpoint_continuity_amended
  have hmem : DancerID.UP_LARK ∈ [DancerID.UP_LARK, DancerID.DOWN_ROBIN] := by simp
  have hnmem : DancerID.UP_ROBIN ∉ [DancerID.UP_LARK, DancerID.DOWN_ROBIN] := by simp
  have htn : c1w_targets DancerID.UP_ROBIN = none := by simp [c1w_targets]
  have hts : c1w_targets DancerID.UP_LARK =
      some { x := 0.3, y := 0.3, facing := 90 } := by simp [c1w_targets]
  have hf0 : (0 : ℝ) ≤ ((_improper 0).dancers DancerID.UP_LARK).facing := by
    norm_num [_improper]
  have hf1 : ((_improper 0).dancers DancerID.UP_LARK).facing < 360 := by
    norm_num [_improper]
  have hla := getLast?_of_ne_nil _ c1w_allemande_keyframes_ne_nil
  have hls := getLast?_of_ne_nil _ c1w_swing_keyframes_ne_nil
  have hlb := getLast?_of_ne_nil _ c1w_balance_keyframes_ne_nil
  have hbf0 : (0 : ℝ) ≤ ((c1w_balance_ctx.start_state).dancers DancerID.UP_LARK).facing := by
    norm_num [c1w_balance_ctx, _improper]
  have hbf1 : ((c1w_balance_ctx.start_state).dancers DancerID.UP_LARK).facing < 360 := by
    norm_num [c1w_balance_ctx, _improper]
  refine ⟨hmem, hnmem, htn, hts, hf0, hf1, hla, hls, hlb, ?_, ?_, ?_, ?_, ?_, ?_, ?_, ?_, ?_, ?_, ?_⟩
  · exact H.1 (_improper 0) [DancerID.UP_LARK, DancerID.DOWN_ROBIN] (0, 0) 180 0 4 0.25 []
      true DancerID.UP_LARK hmem
  · exact H.2.1 (_improper 0) [DancerID.UP_LARK, DancerID.DOWN_ROBIN] (0, 0) 180 0 4 0.25 []
      DancerID.UP_LARK hmem
  · exact H.2.2.1 (_improper 0) [DancerID.UP_LARK, DancerID.DOWN_ROBIN] (0, 0) 180 0 4 0.25 []
      true DancerID.UP_ROBIN hnmem
  · exact H.2.2.2.1 (_improper 0) [DancerID.UP_LARK, DancerID.DOWN_ROBIN] (0, 0) 180 0 4 0.25
      [] DancerID.UP_LARK hmem
  · exact H.2.2.2.2.1 (_improper 0) c1w_targets 0 4 0.25 [] DancerID.UP_ROBIN htn
  · exact H.2.2.2.2.2.1 (_improper 0) c1w_targets 0 4 0.25 [] DancerID.UP_LARK
      { x := 0.3, y := 0.3, facing := 90 } hts hf0 hf1
  · exact H.2.2.2.2.2.2.1 (_improper 0) (DancerID.UP_LARK, DancerID.DOWN_ROBIN) 2 0 8 0.25
      0.15 [] DancerID.UP_LARK (Or.inl rfl)
  · exact H.2.2.2.2.2.2.2.1 (_improper 0) (DancerID.UP_LARK, DancerID.DOWN_ROBIN) 2 0 8 0.25
      0.15 [] DancerID.UP_ROBIN (by decide) (by decide)
  · exact H.2.2.2.2.2.2.2.2.1 c1w_allemande_ctx "right" true DancerID.DOWN_LARK _ hla
  · exact H.2.2.2.2.2.2.2.2.2.1 c1w_swing_ctx DancerID.UP_LARK _ hls
  · exact H.2.2.2.2.2.2.2.2.2.2 c1w_balance_ctx DancerID.UP_LARK _ hlb hbf0 hbf1

/-- Evaluation of process_call on a figure that accepts its single resolved
pair with no warnings and a nonempty keyframe list. -/
lemma process_call_single_success (fc : FigureCall) (acc : CallAcc)
    (f : FigureContext → FigureResult) (a b : DancerID)
    (hgf : get_figure fc.name = some f)
    (hpairs : _resolve_participant_pairs fc.participants = [(a, b)])
    (hw : (f (pair_ctx fc acc.state [a, b])).warnings = [])
    (hk : (f (pair_ctx fc acc.state [a, b])).keyframes ≠ []) :
    process_call fc acc =
      { state := update_dancers acc.state [a, b] (f (pair_ctx fc acc.state [a, b])).end_state,
        warnings := acc.warnings,
        results := acc.results ++
          [((f (pair_ctx fc acc.state [a, b])).keyframes,
            ([a, b] : List DancerID).toFinset)] } := by
  rw [process_call, hgf]
  simp only [hpairs]
  rw [if_neg (by simp)]
  have hflat : ([((a, b) : DancerID × DancerID)]).flatMap (fun pair => [pair.1, pair.2]) =
      [a, b] := by simp
  simp only [hflat, hw, List.any_nil, Bool.false_eq_true, if_false,
    List.isEmpty_eq_false.mpr hk, List.append_nil]

lemma get_figure_do_si_do : get_figure "do_si_do" = some do_si_do := by
  rw [get_figure, if_neg (by decide), if_neg (by decide), if_pos (by decide)]

lemma do_si_do_pair_warnings (fc : FigureCall) (st : WorldState) :
    (do_si_do (pair_ctx fc st [DancerID.UP_LARK, DancerID.DOWN_LARK])).warnings = [] := rfl

lemma isPrefixOf_append_right {p xs : List Char} (ys : List Char)
    (h : p.isPrefixOf xs = true) : p.isPrefixOf (xs ++ ys) = true := by
  induction p generalizing xs with
  | nil => simp [List.isPrefixOf]
  | cons a as ih =>
    cases xs with
    | nil => simp [List.isPrefixOf] at h
    | cons x xs' =>
      simp only [List.isPrefixOf, List.cons_append, Bool.and_eq_true] at h ⊢
      exact ⟨h.1, ih h.2⟩

lemma has_sub_nil_pat (l : List Char) : has_sub [] l = true := by
  induction l with
  | nil => rfl
  | cons c t ih => simp [has_sub, List.isPrefixOf]

lemma has_sub_append (pat xs ys : List Char) (h : has_sub pat xs = true) :
    has_sub pat (xs ++ ys) = true := by
  induction xs with
  | nil =>
    rw [has_sub] at h
    cases pat with
    | nil => exact has_sub_nil_pat ys
    | cons a as => simp [List.isEmpty] at h
  | cons x xs' ih =>
    rw [List.cons_append, has_sub]
    rw [has_sub] at h
    rcases Bool.or_eq_true_iff.mp h with hpre | hrec
    · have hp2 : pat.isPrefixOf (x :: (xs' ++ ys)) = true := isPrefixOf_append_right ys hpre
      rw [hp2]
      rfl
    · rw [ih hrec]
      simp

lemma string_data_append (s t : String) : (s ++ t).data = s.data ++ t.data := by
  cases s
  cases t
  rfl

lemma mentions_participants_append (s t : String)
    (h : mentions_participants s = true) : mentions_participants (s ++ t) = true := by
  rw [mentions_participants] at h ⊢
  rw [py_lower] at h ⊢
  rw [string_data_append, List.map_append]
  exact has_sub_append _ _ _ h

lemma swing_reject_mentions (n : ℕ) :
    mentions_participants ("Swing needs exactly 2 participants, got " ++ toString n) = true :=
  mentions_participants_append _ _ (by decide)

/-- Evaluation of process_call when the full-group invocation reports a
"participants" warning: the call is re-run once per resolved pair, from the
original state, dropping the full-group result. -/
lemma process_call_fallback (fc : FigureCall) (acc : CallAcc)
    (f : FigureContext → FigureResult)
    (hgf : get_figure fc.name = some f)
    (hpairs : _resolve_participant_pairs fc.participants ≠ [])
    (hw : (f (pair_ctx fc acc.state
      ((_resolve_participant_pairs fc.participants).flatMap
        (fun pair => [pair.1, pair.2])))).warnings.any mentions_participants = true) :
    process_call fc acc = fallback_run f fc (_resolve_participant_pairs fc.participants) acc := by
  rw [process_call, hgf]
  simp only
  rw [if_neg hpairs, if_pos hw]

lemma fallback_run_warnings (f : FigureContext → FigureResult) (fc : FigureCall)
    (pairs : List (DancerID × DancerID)) (st : WorldState) (w : List String)
    (r : List (List Keyframe × Finset DancerID)) :
    (fallback_run f fc pairs { state := st, warnings := w, results := r }).warnings =
      w ++ (fallback_run f fc pairs { state := st, warnings := [], results := r }).warnings := by
  induction pairs generalizing st w r with
  | nil => simp [fallback_run]
  | cons p ps ih =>
    rw [show fallback_run f fc (p :: ps) { state := st, warnings := w, results := r } =
        fallback_run f fc ps (fallback_step f fc { state := st, warnings := w, results := r } p)
      from rfl]
    rw [show fallback_run f fc (p :: ps) { state := st, warnings := [], results := r } =
        fallback_run f fc ps (fallback_step f fc { state := st, warnings := [], results := r } p)
      from rfl]
    rw [show fallback_step f fc { state := st, warnings := w, results := r } p =
        { state := update_dancers st [p.1, p.2] (f (pair_ctx fc st [p.1, p.2])).end_state,
          warnings := w ++ (f (pair_ctx fc st [p.1, p.2])).warnings,
          results := if (f (pair_ctx fc st [p.1, p.2])).keyframes.isEmpty then r
                     else r ++ [((f (pair_ctx fc st [p.1, p.2])).keyframes,
                       ([p.1, p.2] : List DancerID).toFinset)] } from rfl]
    rw [show fallback_step f fc { state := st, warnings := [], results := r } p =
        { state := update_dancers st [p.1, p.2] (f (pair_ctx fc st [p.1, p.2])).end_state,
          warnings := (f (pair_ctx fc st [p.1, p.2])).warnings,
          results := if (f (pair_ctx fc st [p.1, p.2])).keyframes.isEmpty then r
                     else r ++ [((f (pair_ctx fc st [p.1, p.2])).keyframes,
                       ([p.1, p.2] : List DancerID).toFinset)] } from rfl]
    rw [ih (update_dancers st [p.1, p.2] (f (pair_ctx fc st [p.1, p.2])).end_state)
      (w ++ (f (pair_ctx fc st [p.1, p.2])).warnings)]
    rw [ih (update_dancers st [p.1, p.2] (f (pair_ctx fc st [p.1, p.2])).end_state)
      ((f (pair_ctx fc st [p.1, p.2])).warnings)]
    simp

/-- C4: a figure that rejects its participant count (swing) returns an empty
keyframe list, an end state equal to the input state, and a warning whose
lower-cased text contains "participants"; and whenever the full-group
invocation's warnings contain "participants", process_call re-invokes the
figure once per resolved pair starting from the unchanged input state (the
rejected full-group result contributes nothing). -/
theorem C4_participant_rejection :
    (∀ ctx : FigureContext, ctx.participants.length ≠ 2 →
      swing ctx = { keyframes := [], end_state := ctx.start_state,
                    warnings := ["Swing needs exactly 2 participants, got " ++
                      toString ctx.participants.length] } ∧
      ∀ w ∈ (swing ctx).warnings, mentions_participants w = true) ∧
    (∀ (fc : FigureCall) (acc : CallAcc) (f : FigureContext → FigureResult),
      get_figure fc.name = some f →
      _resolve_participant_pairs fc.participants ≠ [] →
      (f (pair_ctx fc acc.state
        ((_resolve_participant_pairs fc.participants).flatMap
          (fun pair => [pair.1, pair.2])))).warnings.any mentions_participants = true →
      process_call fc acc =
        fallback_run f fc (_resolve_participant_pairs fc.participants) acc) := by
  constructor
  · intro ctx hlen
    have hrec : swing ctx = { keyframes := [], end_state := ctx.start_state,
                              warnings := ["Swing needs exactly 2 participants, got " ++
                                toString ctx.participants.length] } := by
      rcases hps : ctx.participants with _ | ⟨d1, _ | ⟨d2, _ | ⟨d3, rest⟩⟩⟩
      · simp [swing, hps]
      · simp [swing, hps]
      · exact absurd (by rw [hps]; rfl) hlen
      · simp [swing, hps]
    refine ⟨hrec, ?_⟩
    rw [hrec]
    intro w hw
    rcases List.mem_singleton.mp hw with rfl
    exact swing_reject_mentions _
  · intro fc acc f hgf hpairs hw
    exact process_call_fallback fc acc f hgf hpairs hw

/-- The swing call on both neighbor pairs used to witness the
participant-count fallback. -/
def c4_swing_call : FigureCall :=
  { name := "swing", beat_start := 0, beat_end := 8, participants := ["neighbors"] }

lemma c4_resolve : _resolve_participant_pairs c4_swing_call.participants =
    [(DancerID.UP_LARK, DancerID.DOWN_ROBIN), (DancerID.UP_ROBIN, DancerID.DOWN_LARK)] := by
  decide

lemma c4_get_figure : get_figure c4_swing_call.name = some swing := by
  rw [show c4_swing_call.name = "swing" from rfl, get_figure, if_pos (by decide)]

lemma c4_reject_any : (swing (pair_ctx c4_swing_call (make_formation Formation.IMPROPER 0)
    ((_resolve_participant_pairs c4_swing_call.participants).flatMap
      (fun pair => [pair.1, pair.2])))).warnings.any mentions_participants = true := by
  rw [c4_resolve]
  rw [show ((([(DancerID.UP_LARK, DancerID.DOWN_ROBIN),
      (DancerID.UP_ROBIN, DancerID.DOWN_LARK)] : List (DancerID × DancerID)).flatMap
        (fun pair => [pair.1, pair.2]))) =
      [DancerID.UP_LARK, DancerID.DOWN_ROBIN, DancerID.UP_ROBIN, DancerID.DOWN_LARK]
    from rfl]
  rw [show (swing (pair_ctx c4_swing_call (make_formation Formation.IMPROPER 0)
      [DancerID.UP_LARK, DancerID.DOWN_ROBIN, DancerID.UP_ROBIN,
        DancerID.DOWN_LARK])).warnings =
    ["Swing needs exactly 2 participants, got " ++ toString
      ([DancerID.UP_LARK, DancerID.DOWN_ROBIN, DancerID.UP_ROBIN,
        DancerID.DOWN_LARK] : List DancerID).length] from rfl]
  simp only [List.any_cons, List.any_nil, Bool.or_false]
  exact swing_reject_mentions _

/-- Witness for C4 at a concrete input: swing invoked on both neighbor pairs
(4 participants) rejects the full-group call with a "participants" warning,
and process_call falls back to the per-pair run from the unchanged state. -/
theorem C4_participant_rejection_witness :
    ((pair_ctx c4_swing_call (make_formation Formation.IMPROPER 0)
        ((_resolve_participant_pairs c4_swing_call.participants).flatMap
          (fun pair => [pair.1, pair.2]))).participants.length ≠ 2) ∧
    (∀ w ∈ (swing (pair_ctx c4_swing_call (make_formation Formation.IMPROPER 0)
        ((_resolve_participant_pairs c4_swing_call.participants).flatMap
          (fun pair => [pair.1, pair.2])))).warnings, mentions_participants w = true) ∧
    get_figure c4_swing_call.name = some swing ∧
    _resolve_participant_pairs c4_swing_call.participants ≠ [] ∧
    (swing (pair_ctx c4_swing_call (make_formation Formation.IMPROPER 0)
        ((_resolve_participant_pairs c4_swing_call.participants).flatMap
          (fun pair => [pair.1, pair.2])))).warnings.any mentions_participants = true ∧
    process_call c4_swing_call
        { state := make_formation Formation.IMPROPER 0, warnings := [], results := [] } =
      fallback_run swing c4_swing_call (_resolve_participant_pairs c4_swing_call.participants)
        { state := make_formation Formation.IMPROPER 0, warnings := [], results := [] } := by
  have hlen : (pair_ctx c4_swing_call (make_formation Formation.IMPROPER 0)
      ((_resolve_participant_pairs c4_swing_call.participants).flatMap
        (fun pair => [pair.1, pair.2]))).participants.length ≠ 2 := by
    rw [c4_resolve]
    decide
  have hne : _resolve_participant_pairs c4_swing_call.participants ≠ [] := by
    rw [c4_resolve]
    simp
  refine ⟨hlen, ?_, c4_get_figure, hne, c4_reject_any, ?_⟩
  · exact ((C4_participant_rejection.1 _ hlen).2)
  · exact C4_participant_rejection.2 c4_swing_call
      { state := make_formation Formation.IMPROPER 0, warnings := [], results := [] }
      swing c4_get_figure hne c4_reject_any

/-- C10: when the full-group invocation is rejected through a "participants"
warning, none of that invocation's warnings (the rejection warning included)
are appended to the output; the processed warning list is the input list
extended by exactly the per-pair calls' warnings. -/
theorem C10_rejected_warnings_dropped
    (fc : FigureCall) (acc : CallAcc) (f : FigureContext → FigureResult)
    (hgf : get_figure fc.name = some f)
    (hpairs : _resolve_participant_pairs fc.participants ≠ [])
    (hw : (f (pair_ctx fc acc.state
      ((_resolve_participant_pairs fc.participants).flatMap
        (fun pair => [pair.1, pair.2])))).warnings.any mentions_participants = true) :
    (process_call fc acc).warnings =
      acc.warnings ++
        (fallback_run f fc (_resolve_participant_pairs fc.participants)
          { state := acc.state, warnings := [], results := acc.results }).warnings := by
  rw [process_call_fallback fc acc f hgf hpairs hw]
  exact fallback_run_warnings f fc (_resolve_participant_pairs fc.participants)
    acc.state acc.warnings acc.results

/-- Witness for C10 at the concrete rejected swing-on-neighbors call. -/
theorem C10_rejected_warnings_dropped_witness :
    get_figure c4_swing_call.name = some swing ∧
    _resolve_participant_pairs c4_swing_call.participants ≠ [] ∧
    (swing (pair_ctx c4_swing_call (make_formation Formation.IMPROPER 0)
        ((_resolve_participant_pairs c4_swing_call.participants).flatMap
          (fun pair => [pair.1, pair.2])))).warnings.any mentions_participants = true ∧
    (process_call c4_swing_call
        { state := make_formation Formation.IMPROPER 0, warnings := [], results := [] }).warnings =
      [] ++ (fallback_run swing c4_swing_call
        (_resolve_participant_pairs c4_swing_call.participants)
        { state := make_formation Formation.IMPROPER 0, warnings := [],
          results := [] }).warnings := by
  have hne : _resolve_participant_pairs c4_swing_call.participants ≠ [] := by
    rw [c4_resolve]
    simp
  exact ⟨c4_get_figure, hne, c4_reject_any,
    C10_rejected_warnings_dropped c4_swing_call
      { state := make_formation Formation.IMPROPER 0, warnings := [], results := [] }
      swing c4_get_figure hne c4_reject_any⟩

/-- C9 (amended): the resolver signals failure (none) on an unknown token
and the per-token loop silently skips it, contributing no pairs and no
warning; only when no token of the invocation resolves does the Orchestrator
emit the "Could not resolve participants" warning and exclude the invocation
(no keyframes appended, state unchanged). -/
theorem C9_unresolved_reference_amended :
    (∀ (ref : String) (refs : List String) (pairs seen : List (DancerID × DancerID)),
      resolve_participant_group (py_strip (py_lower ref)) = none →
      ¬(py_strip (py_lower ref) = "all" ∨ py_strip (py_lower ref) = "everyone") →
      resolve_pairs_loop (ref :: refs) pairs seen = resolve_pairs_loop refs pairs seen) ∧
    (∀ (fc : FigureCall) (acc : CallAcc) (f : FigureContext → FigureResult),
      get_figure fc.name = some f →
      _resolve_participant_pairs fc.participants = [] →
      process_call fc acc =
        { acc with warnings := acc.warnings ++
            ["Could not resolve participants for " ++ fc.name ++ ": " ++
              toString fc.participants] }) := by
  constructor
  · intro ref refs pairs seen hnone hnotall
    rw [resolve_pairs_loop]
    rw [if_neg hnotall, hnone]
  · intro fc acc f hgf hempty
    rw [process_call, hgf]
    simp only
    rw [if_pos hempty]

/-- The do_si_do call whose only participant token is unknown, used to
witness the no-token-resolves branch. -/
def c9_unknown_call : FigureCall :=
  { name := "do_si_do", beat_start := 0, beat_end := 4, participants := ["blorp"] }

/-- Witness for C9 (amended) at concrete inputs: the unknown token "blorp"
resolves to none and is skipped by the loop; a call with only "blorp"
triggers the could-not-resolve warning and leaves the accumulator otherwise
unchanged. -/
theorem C9_unresolved_reference_amended_witness :
    resolve_participant_group (py_strip (py_lower "blorp")) = none ∧
    ¬(py_strip (py_lower "blorp") = "all" ∨ py_strip (py_lower "blorp") = "everyone") ∧
    resolve_pairs_loop ["blorp", "larks"] [] [] = resolve_pairs_loop ["larks"] [] [] ∧
    get_figure c9_unknown_call.name = some do_si_do ∧
    _resolve_participant_pairs c9_unknown_call.participants = [] ∧
    process_call c9_unknown_call
        { state := make_formation Formation.IMPROPER 0, warnings := [], results := [] } =
      { state := make_formation Formation.IMPROPER 0,
        warnings := [] ++ ["Could not resolve participants for " ++ c9_unknown_call.name ++
          ": " ++ toString c9_unknown_call.participants],
        results := [] } := by
  have hnone : resolve_participant_group (py_strip (py_lower "blorp")) = none := by decide
  have hnotall : ¬(py_strip (py_lower "blorp") = "all" ∨
      py_strip (py_lower "blorp") = "everyone") := by decide
  have hempty : _resolve_participant_pairs c9_unknown_call.participants = [] := by decide
  have hgf : get_figure c9_unknown_call.name = some do_si_do := by
    rw [show c9_unknown_call.name = "do_si_do" from rfl]
    exact get_figure_do_si_do
  exact ⟨hnone, hnotall,
    C9_unresolved_reference_amended.1 "blorp" ["larks"] [] [] hnone hnotall,
    hgf, hempty,
    C9_unresolved_reference_amended.2 c9_unknown_call
      { state := make_formation Formation.IMPROPER 0, warnings := [], results := [] }
      do_si_do hgf hempty⟩

/-- The do_si_do call mixing one resolvable and one unknown token, used to
refute the original C9. -/
def c9_mixed_call : FigureCall :=
  { name := "do_si_do", beat_start := 0, beat_end := 4, participants := ["larks", "blorp"] }

lemma c9_mixed_resolve : _resolve_participant_pairs c9_mixed_call.participants =
    [(DancerID.UP_LARK, DancerID.DOWN_LARK)] := by decide

lemma do_si_do_c9_keyframes (st : WorldState) :
    (do_si_do (pair_ctx c9_mixed_call st [DancerID.UP_LARK, DancerID.DOWN_LARK])).keyframes =
      circular_arc st [DancerID.UP_LARK, DancerID.DOWN_LARK]
        (world_midpoint (st.dancers DancerID.UP_LARK) (st.dancers DancerID.DOWN_LARK))
        (1.0 * 360) 0 4 0.25 [] false := rfl

/-- C9 counterexample: an invocation containing an unknown token alongside a
resolvable one is NOT excluded and triggers NO warning — the unknown token
is silently dropped and the invocation runs on the resolved pair. -/
theorem C9_counterexample :
    (process_call c9_mixed_call
      { state := make_formation Formation.IMPROPER 0, warnings := [],
        results := [] }).warnings = [] ∧
    (process_call c9_mixed_call
      { state := make_formation Formation.IMPROPER 0, warnings := [],
        results := [] }).results ≠ [] := by
  have h := process_call_single_success c9_mixed_call
    { state := make_formation Formation.IMPROPER 0, warnings := [], results := [] }
    do_si_do DancerID.UP_LARK DancerID.DOWN_LARK
    (by rw [show c9_mixed_call.name = "do_si_do" from rfl]; exact get_figure_do_si_do)
    c9_mixed_resolve (do_si_do_pair_warnings _ _)
    (by rw [do_si_do_c9_keyframes, circular_arc]; exact range_map_ne_nil _ _)
  rw [h]
  exact ⟨rfl, by simp⟩

/-- The fold of swing's revolution grid search with an explicit accumulator
and candidate list: swing_pick_revolutions is the first component of this
run started at (naive, none) on the 101-candidate grid. -/
def swing_search_run (d1 d2 : DancerID) (state : WorldState)
    (desired : DancerID → ℝ × ℝ) (closing_distance : ℝ)
    (acc : ℝ × Option ℝ) (cs : List ℝ) : ℝ × Option ℝ :=
  cs.foldl (swing_search_step d1 d2 state desired closing_distance) acc

lemma swing_pick_revolutions_eq_run (d1 d2 : DancerID) (state : WorldState)
    (desired : DancerID → ℝ × ℝ) (cd naive : ℝ) :
    swing_pick_revolutions d1 d2 state desired cd naive =
      (swing_search_run d1 d2 state desired cd (naive, none)
        ((List.range 101).map (fun k => naive + ((k : ℝ) - 50) / 100))).1 := rfl

lemma swing_search_step_skip (d1 d2 : DancerID) (state : WorldState)
    (desired : DancerID → ℝ × ℝ) (cd : ℝ) (acc : ℝ × Option ℝ) (c : ℝ)
    (h : c < 0.5) :
    swing_search_step d1 d2 state desired cd acc c = acc := by
  simp only [swing_search_step]
  rw [if_pos h]

lemma swing_search_step_none (d1 d2 : DancerID) (state : WorldState)
    (desired : DancerID → ℝ × ℝ) (cd : ℝ) (acc : ℝ × Option ℝ) (c : ℝ)
    (h : ¬ c < 0.5) (h2 : acc.2 = none) :
    swing_search_step d1 d2 state desired cd acc c
      = (c, some (swing_candidate_err d1 d2 state desired cd c)) := by
  simp only [swing_search_step]
  rw [if_neg h, h2]

lemma swing_search_step_better (d1 d2 : DancerID) (state : WorldState)
    (desired : DancerID → ℝ × ℝ) (cd : ℝ) (acc : ℝ × Option ℝ) (c be : ℝ)
    (h : ¬ c < 0.5) (h2 : acc.2 = some be)
    (h3 : swing_candidate_err d1 d2 state desired cd c < be) :
    swing_search_step d1 d2 state desired cd acc c
      = (c, some (swing_candidate_err d1 d2 state desired cd c)) := by
  simp only [swing_search_step]
  rw [if_neg h, h2]
  show (if swing_candidate_err d1 d2 state desired cd c < be then
    (c, some (swing_candidate_err d1 d2 state desired cd c)) else acc) = _
  rw [if_pos h3]

lemma swing_search_step_keep (d1 d2 : DancerID) (state : WorldState)
    (desired : DancerID → ℝ × ℝ) (cd : ℝ) (acc : ℝ × Option ℝ) (c be : ℝ)
    (h : ¬ c < 0.5) (h2 : acc.2 = some be)
    (h3 : ¬ swing_candidate_err d1 d2 state desired cd c < be) :
    swing_search_step d1 d2 state desired cd acc c = acc := by
  simp only [swing_search_step]
  rw [if_neg h, h2]
  show (if swing_candidate_err d1 d2 state desired cd c < be then
    (c, some (swing_candidate_err d1 d2 state desired cd c)) else acc) = acc
  rw [if_neg h3]

lemma swing_search_run_spec (d1 d2 : DancerID) (state : WorldState)
    (desired : DancerID → ℝ × ℝ) (cd : ℝ) (cs : List ℝ) :
    ∀ acc : ℝ × Option ℝ,
      (∀ e, acc.2 = some e → e = swing_candidate_err d1 d2 state desired cd acc.1) →
      (∀ e, (swing_search_run d1 d2 state desired cd acc cs).2 = some e →
        e = swing_candidate_err d1 d2 state desired cd
              (swing_search_run d1 d2 state desired cd acc cs).1) ∧
      (swing_search_run d1 d2 state desired cd acc cs = acc ∨
        ((swing_search_run d1 d2 state desired cd acc cs).1 ∈ cs ∧
         ¬ (swing_search_run d1 d2 state desired cd acc cs).1 < 0.5 ∧
         (swing_search_run d1 d2 state desired cd acc cs).2 ≠ none)) ∧
      (∀ e' e, (swing_search_run d1 d2 state desired cd acc cs).2 = some e' →
        acc.2 = some e → e' ≤ e) ∧
      (∀ c ∈ cs, ¬ c < 0.5 →
        ∃ e', (swing_search_run d1 d2 state desired cd acc cs).2 = some e' ∧
          e' ≤ swing_candidate_err d1 d2 state desired cd c) := by
  induction cs with
  | nil =>
    intro acc hacc
    refine ⟨hacc, Or.inl rfl, ?_, ?_⟩
    · intro e' e h1 h2
      have h3 : some e' = some e := h1.symm.trans h2
      exact le_of_eq (Option.some.inj h3)
    · intro c hc
      exact absurd hc (List.not_mem_nil c)
  | cons c0 cs ih =>
    intro acc hacc
    have hstep : swing_search_run d1 d2 state desired cd acc (c0 :: cs)
        = swing_search_run d1 d2 state desired cd
            (swing_search_step d1 d2 state desired cd acc c0) cs := rfl
    rw [hstep]
    by_cases h0 : c0 < 0.5
    · rw [swing_search_step_skip d1 d2 state desired cd acc c0 h0]
      obtain ⟨H1, H2, H3, H4⟩ := ih acc hacc
      refine ⟨H1, ?_, H3, ?_⟩
      · rcases H2 with h | ⟨hm, hg, hn⟩
        · exact Or.inl h
        · exact Or.inr ⟨List.mem_cons_of_mem _ hm, hg, hn⟩
      · intro c hc hgc
        rcases List.mem_cons.mp hc with rfl | hc'
        · exact absurd h0 hgc
        · exact H4 c hc' hgc
    · rcases hacc2 : acc.2 with _ | be
      · rw [swing_search_step_none d1 d2 state desired cd acc c0 h0 hacc2]
        obtain ⟨H1, H2, H3, H4⟩ := ih
          (c0, some (swing_candidate_err d1 d2 state desired cd c0))
          (fun e he => (Option.some.inj he).symm)
        refine ⟨H1, ?_, ?_, ?_⟩
        · rcases H2 with h | ⟨hm, hg, hn⟩
          · refine Or.inr ⟨?_, ?_, ?_⟩ <;> rw [h]
            · exact List.mem_cons_self c0 cs
            · exact h0
            · exact Option.some_ne_none _
          · exact Or.inr ⟨List.mem_cons_of_mem _ hm, hg, hn⟩
        · intro e' e h1 h2
          exact Option.noConfusion h2
        · intro c hc hgc
          rcases List.mem_cons.mp hc with rfl | hc'
          · rcases H2 with h | ⟨hm, hg, hn⟩
            · refine ⟨swing_candidate_err d1 d2 state desired cd c, ?_, le_refl _⟩
              rw [h]
            · rcases Option.ne_none_iff_exists'.mp hn with ⟨e', he'⟩
              exact ⟨e', he', H3 e' _ he' rfl⟩
          · exact H4 c hc' hgc
      · by_cases h3 : swing_candidate_err d1 d2 state desired cd c0 < be
        · rw [swing_search_step_better d1 d2 state desired cd acc c0 be h0 hacc2 h3]
          obtain ⟨H1, H2, H3, H4⟩ := ih
            (c0, some (swing_candidate_err d1 d2 state desired cd c0))
            (fun e he => (Option.some.inj he).symm)
          refine ⟨H1, ?_, ?_, ?_⟩
          · rcases H2 with h | ⟨hm, hg, hn⟩
            · refine Or.inr ⟨?_, ?_, ?_⟩ <;> rw [h]
              · exact List.mem_cons_self c0 cs
              · exact h0
              · exact Option.some_ne_none _
            · exact Or.inr ⟨List.mem_cons_of_mem _ hm, hg, hn⟩
          · intro e' e h1 h2
            have hbe : be = e := Option.some.inj h2
            have h4 : e' ≤ swing_candidate_err d1 d2 state desired cd c0 := H3 e' _ h1 rfl
            have h5 : swing_candidate_err d1 d2 state desired cd c0 < e := hbe ▸ h3
            exact le_of_lt (lt_of_le_of_lt h4 h5)
          · intro c hc hgc
            rcases List.mem_cons.mp hc with rfl | hc'
            · rcases H2 with h | ⟨hm, hg, hn⟩
              · refine ⟨swing_candidate_err d1 d2 state desired cd c, ?_, le_refl _⟩
                rw [h]
              · rcases Option.ne_none_iff_exists'.mp hn with ⟨e', he'⟩
                exact ⟨e', he', H3 e' _ he' rfl⟩
            · exact H4 c hc' hgc
        · rw [swing_search_step_keep d1 d2 state desired cd acc c0 be h0 hacc2 h3]
          obtain ⟨H1, H2, H3, H4⟩ := ih acc hacc
          refine ⟨H1, ?_, fun e' e h1 h2 => H3 e' e h1 (hacc2.trans h2), ?_⟩
          · rcases H2 with h | ⟨hm, hg, hn⟩
            · exact Or.inl h
            · exact Or.inr ⟨List.mem_cons_of_mem _ hm, hg, hn⟩
          · intro c hc hgc
            rcases List.mem_cons.mp hc with rfl | hc'
            · rcases H2 with h | ⟨hm, hg, hn⟩
              · refine ⟨be, ?_, not_lt.mp h3⟩
                rw [h, hacc2]
              · rcases Option.ne_none_iff_exists'.mp hn with ⟨e', he'⟩
                exact ⟨e', he', le_trans (H3 e' be he' hacc2) (not_lt.mp h3)⟩
            · exact H4 c hc' hgc

/-- The success branch of swing (both required params present, exactly two
participants) with the revolution count lifted to a parameter; swing equals
this at the explicitly supplied or at the searched revolution count. -/
def swing_body (ctx : FigureContext) (d1 d2 : DancerID) (target_facing : ℝ)
    (end_center : ℝ × ℝ) (revolutions : ℝ) : FigureResult :=
  let state := ctx.start_state
  let lr := if d1.is_lark then (d1, d2) else (d2, d1)
  let lark := lr.1
  let robin := lr.2
  let desired := swing_desired lark robin target_facing end_center
  let closing_distance := (0.15 : ℝ)
  let hands := [HandConnection.mk lark Hand.RIGHT robin Hand.LEFT]
  let keyframes0 := orbit state (d1, d2) revolutions
    ctx.beat_start ctx.beat_end ctx.beats_per_frame closing_distance hands
  let end_state : WorldState :=
    { beat := ctx.beat_end,
      dancers := fun did =>
        if did = robin then
          { x := (desired robin).1, y := (desired robin).2, facing := target_facing }
        else if did = lark then
          { x := (desired lark).1, y := (desired lark).2, facing := target_facing }
        else state.dancers did,
      hands := state.hands }
  let keyframes :=
    match keyframes0.getLast? with
    | none => keyframes0
    | some last => keyframes0.dropLast ++
        [{ last with dancers := fun did =>
             if did = robin ∨ did = lark then end_state.dancers did else last.dancers did }]
  { keyframes := keyframes, end_state := end_state, warnings := [] }

lemma swing_success_eq (ctx : FigureContext) (d1 d2 : DancerID) (tf : ℝ) (ec : ℝ × ℝ)
    (hps : ctx.participants = [d1, d2])
    (htf : ctx.params.target_facing = some tf)
    (hec : ctx.params.end_center = some ec) :
    swing ctx = swing_body ctx d1 d2 tf ec
      (match ctx.params.revolutions with
       | some r => r
       | none => swing_pick_revolutions d1 d2 ctx.start_state
           (swing_desired (if d1.is_lark then (d1, d2) else (d2, d1)).1
             (if d1.is_lark then (d1, d2) else (d2, d1)).2 tf ec)
           0.15 (ctx.duration / 4)) := by
  simp only [swing, swing_body, hps, htf, hec]

/-- C5: for swing with both required params and exactly two participants, the
revolution count chosen by the grid search lies in [duration/4 - 0.5,
duration/4 + 0.5], is never below 0.5, is one of the 101 candidates at
0.01-revolution increments, and attains the minimum predicted-endpoint error
(summed squared distance between the closed-form orbit endpoint and the
desired endpoint) among the candidates not below 0.5; when the revolutions
param is absent swing runs its body at exactly this searched count, and when
an explicit revolutions param is supplied swing runs its body at that value,
bypassing the search. -/
theorem C5_swing_revolution_search
    (ctx : FigureContext) (d1 d2 : DancerID) (tf : ℝ) (ec : ℝ × ℝ)
    (desired : DancerID → ℝ × ℝ) (chosen naive : ℝ)
    (hps : ctx.participants = [d1, d2])
    (htf : ctx.params.target_facing = some tf)
    (hec : ctx.params.end_center = some ec)
    (hdes : desired = swing_desired (if d1.is_lark then (d1, d2) else (d2, d1)).1
        (if d1.is_lark then (d1, d2) else (d2, d1)).2 tf ec)
    (hnaive : naive = ctx.duration / 4)
    (hch : chosen = swing_pick_revolutions d1 d2 ctx.start_state desired 0.15 naive)
    (hdur : 0 < ctx.duration) :
    (naive - 0.5 ≤ chosen ∧ chosen ≤ naive + 0.5) ∧
    (0.5 : ℝ) ≤ chosen ∧
    (∃ k : ℕ, k ≤ 100 ∧ chosen = naive + ((k : ℝ) - 50) / 100) ∧
    (∀ k : ℕ, k ≤ 100 → ¬ naive + ((k : ℝ) - 50) / 100 < 0.5 →
      swing_candidate_err d1 d2 ctx.start_state desired 0.15 chosen ≤
        swing_candidate_err d1 d2 ctx.start_state desired 0.15
          (naive + ((k : ℝ) - 50) / 100)) ∧
    (ctx.params.revolutions = none → swing ctx = swing_body ctx d1 d2 tf ec chosen) ∧
    (∀ r, ctx.params.revolutions = some r → swing ctx = swing_body ctx d1 d2 tf ec r) := by
  subst hch
  subst hnaive
  have hrun : swing_pick_revolutions d1 d2 ctx.start_state desired 0.15 (ctx.duration / 4)
      = (swing_search_run d1 d2 ctx.start_state desired 0.15 (ctx.duration / 4, none)
          ((List.range 101).map (fun k : ℕ => ctx.duration / 4 + ((k : ℝ) - 50) / 100))).1 := rfl
  rw [hrun]
  obtain ⟨H1, H2, H3, H4⟩ := swing_search_run_spec d1 d2 ctx.start_state desired 0.15
    ((List.range 101).map (fun k : ℕ => ctx.duration / 4 + ((k : ℝ) - 50) / 100))
    (ctx.duration / 4, none) (fun e he => Option.noConfusion he)
  have hc100mem : ctx.duration / 4 + (((100 : ℕ) : ℝ) - 50) / 100 ∈
      (List.range 101).map (fun k : ℕ => ctx.duration / 4 + ((k : ℝ) - 50) / 100) :=
    List.mem_map.mpr ⟨100, List.mem_range.mpr (by norm_num), rfl⟩
  have hge100 : ¬ ctx.duration / 4 + (((100 : ℕ) : ℝ) - 50) / 100 < 0.5 := by
    intro hcon
    push_cast at hcon
    linarith
  obtain ⟨e', hrune', hle'⟩ := H4 _ hc100mem hge100
  rcases H2 with heq | ⟨hmem, hgef, _⟩
  · rw [heq] at hrune'
    exact Option.noConfusion hrune'
  · obtain ⟨k, hk, hkeq0⟩ := List.mem_map.mp hmem
    have hkeq : ctx.duration / 4 + ((k : ℝ) - 50) / 100 =
        (swing_search_run d1 d2 ctx.start_state desired 0.15 (ctx.duration / 4, none)
          ((List.range 101).map (fun j : ℕ => ctx.duration / 4 + ((j : ℝ) - 50) / 100))).1 := hkeq0
    have hk100 : k ≤ 100 := by
      have := List.mem_range.mp hk
      omega
    have hkr : ((k : ℕ) : ℝ) ≤ 100 := by exact_mod_cast hk100
    have hkr0 : (0 : ℝ) ≤ ((k : ℕ) : ℝ) := Nat.cast_nonneg k
    refine ⟨⟨?_, ?_⟩, not_lt.mp hgef, ⟨k, hk100, hkeq.symm⟩, ?_, ?_, ?_⟩
    · rw [← hkeq]
      linarith
    · rw [← hkeq]
      linarith
    · intro k' hk' hgek'
      have hmem' : ctx.duration / 4 + ((k' : ℝ) - 50) / 100 ∈
          (List.range 101).map (fun j : ℕ => ctx.duration / 4 + ((j : ℝ) - 50) / 100) :=
        List.mem_map.mpr ⟨k', List.mem_range.mpr (by omega), rfl⟩
      obtain ⟨e'', hrune'', hle''⟩ := H4 _ hmem' hgek'
      have he'' := H1 e'' hrune''
      rw [← he'']
      exact hle''
    · intro hrev
      rw [swing_success_eq ctx d1 d2 tf ec hps htf hec, hrev, ← hdes]
      exact congrArg (swing_body ctx d1 d2 tf ec) hrun
    · intro r hrev
      rw [swing_success_eq ctx d1 d2 tf ec hps htf hec, hrev]

def c5ctx : FigureContext :=
  { call := { name := "swing", beat_start := 0, beat_end := 8,
              participants := ["partner"],
              params := { target_facing := some 0, end_center := some ((0 : ℝ), (0 : ℝ)) } },
    start_state := _improper 0,
    participants := [DancerID.UP_LARK, DancerID.UP_ROBIN] }

def c5desired : DancerID → ℝ × ℝ :=
  swing_desired DancerID.UP_LARK DancerID.UP_ROBIN 0 ((0 : ℝ), (0 : ℝ))

theorem C5_swing_revolution_search_witness :
    (0 : ℝ) < c5ctx.duration ∧
    (c5ctx.duration / 4 - 0.5 ≤ swing_pick_revolutions DancerID.UP_LARK DancerID.UP_ROBIN
        c5ctx.start_state c5desired 0.15 (c5ctx.duration / 4) ∧
      swing_pick_revolutions DancerID.UP_LARK DancerID.UP_ROBIN
        c5ctx.start_state c5desired 0.15 (c5ctx.duration / 4) ≤ c5ctx.duration / 4 + 0.5) ∧
    (0.5 : ℝ) ≤ swing_pick_revolutions DancerID.UP_LARK DancerID.UP_ROBIN
      c5ctx.start_state c5desired 0.15 (c5ctx.duration / 4) := by
  have hdur : (0 : ℝ) < c5ctx.duration := by
    norm_num [c5ctx, FigureContext.duration]
  have h := C5_swing_revolution_search c5ctx DancerID.UP_LARK DancerID.UP_ROBIN 0
    ((0 : ℝ), (0 : ℝ)) c5desired
    (swing_pick_revolutions DancerID.UP_LARK DancerID.UP_ROBIN c5ctx.start_state c5desired 0.15
      (c5ctx.duration / 4))
    (c5ctx.duration / 4) rfl rfl rfl rfl rfl rfl hdur
  exact ⟨hdur, h.1, h.2.1⟩

lemma filter_rounded_beat_singleton (br : ℝ) :
    ∀ (l : List Keyframe),
      List.Pairwise (fun a b : Keyframe => a.beat < b.beat) l →
      (∀ kf ∈ l, round6 kf.beat = kf.beat) →
      ∀ x ∈ l, round6 x.beat = br →
      l.filter (fun kf => decide (round6 kf.beat = br)) = [x] := by
  intro l
  induction l with
  | nil => intro _ _ x hx; exact absurd hx (List.not_mem_nil x)
  | cons a l' ih =>
    intro hpw hfix x hx hbr
    obtain ⟨ha, hpw'⟩ := List.pairwise_cons.mp hpw
    rcases List.mem_cons.mp hx with rfl | hx'
    · rw [List.filter_cons]
      rw [if_pos (by simp [hbr])]
      have hnil : l'.filter (fun kf => decide (round6 kf.beat = br)) = [] := by
        rw [List.filter_eq_nil_iff]
        intro y hy
        simp only [decide_eq_true_eq]
        rw [hfix y (List.mem_cons_of_mem _ hy)]
        rw [hfix x (List.mem_cons_self _ _)] at hbr
        rw [← hbr]
        exact ne_of_gt (ha y hy)
      rw [hnil]
    · rw [List.filter_cons]
      rw [if_neg (by
        simp only [decide_eq_true_eq]
        rw [hfix a (List.mem_cons_self _ _)]
        rw [hfix x hx] at hbr
        rw [← hbr]
        exact ne_of_lt (ha x hx'))]
      exact ih hpw' (fun y hy => hfix y (List.mem_cons_of_mem _ hy)) x hx' hbr

lemma build_index_lookup_hit (l : List Keyframe)
    (hpw : List.Pairwise (fun a b : Keyframe => a.beat < b.beat) l)
    (hfix : ∀ kf ∈ l, round6 kf.beat = kf.beat)
    (x : Keyframe) (hx : x ∈ l) :
    build_index_lookup l (round6 x.beat) = some x := by
  rw [build_index_lookup,
    filter_rounded_beat_singleton (round6 x.beat) l hpw hfix x hx rfl]
  rfl

lemma build_index_lookup_miss (l : List Keyframe) (br : ℝ)
    (hmiss : ∀ kf ∈ l, round6 kf.beat ≠ br) :
    build_index_lookup l br = none := by
  rw [build_index_lookup]
  have hnil : l.filter (fun kf => decide (round6 kf.beat = br)) = [] := by
    rw [List.filter_eq_nil_iff]
    intro y hy
    simp only [decide_eq_true_eq]
    exact hmiss y hy
  rw [hnil]
  rfl

lemma find_frame_hit (l : List Keyframe)
    (hpw : List.Pairwise (fun a b : Keyframe => a.beat < b.beat) l)
    (hfix : ∀ kf ∈ l, round6 kf.beat = kf.beat)
    (x : Keyframe) (hx : x ∈ l) :
    find_frame x.beat l = some x := by
  have h1 : round6 x.beat = round6 x.beat := rfl
  have h2 : build_index_lookup l (round6 x.beat) = some x :=
    build_index_lookup_hit l hpw hfix x hx
  rw [find_frame.eq_def, h2]

lemma bsearch_step (l : List Keyframe) (b : ℝ) (lo hi : ℕ) (hcase : lo + 1 < hi) :
    bsearch l b lo hi =
      if (l.getD ((lo + hi) / 2) default).beat ≤ b then bsearch l b ((lo + hi) / 2) hi
      else bsearch l b lo ((lo + hi) / 2) := by
  rw [bsearch, if_pos hcase]

lemma bsearch_exit (l : List Keyframe) (b : ℝ) (lo hi : ℕ) (hcase : ¬ lo + 1 < hi) :
    bsearch l b lo hi = (lo, hi) := by
  rw [bsearch, if_neg hcase]

lemma bsearch_bracket (l : List Keyframe) (b : ℝ) :
    ∀ n lo hi, hi - lo ≤ n → lo < hi → hi < l.length →
      (l.getD lo default).beat ≤ b → b < (l.getD hi default).beat →
      (bsearch l b lo hi).2 = (bsearch l b lo hi).1 + 1 ∧
      lo ≤ (bsearch l b lo hi).1 ∧ (bsearch l b lo hi).2 ≤ hi ∧
      (l.getD (bsearch l b lo hi).1 default).beat ≤ b ∧
      b < (l.getD (bsearch l b lo hi).2 default).beat := by
  intro n
  induction n with
  | zero =>
    intro lo hi hle hlt
    omega
  | succ n ih =>
    intro lo hi hle hlt hhi hlo hb
    by_cases hcase : lo + 1 < hi
    · rw [bsearch_step l b lo hi hcase]
      by_cases hmb : (l.getD ((lo + hi) / 2) default).beat ≤ b
      · rw [if_pos hmb]
        obtain ⟨h1, h2, h3, h4, h5⟩ := ih ((lo + hi) / 2) hi (by omega) (by omega) hhi hmb hb
        exact ⟨h1, by omega, h3, h4, h5⟩
      · rw [if_neg hmb]
        obtain ⟨h1, h2, h3, h4, h5⟩ :=
          ih lo ((lo + hi) / 2) (by omega) (by omega) (by omega) hlo (not_le.mp hmb)
        exact ⟨h1, h2, by omega, h4, h5⟩
    · rw [bsearch_exit l b lo hi hcase]
      exact ⟨by omega, le_refl lo, le_refl hi, hlo, hb⟩

lemma find_frame_interp (l : List Keyframe) (b : ℝ)
    (hfix : ∀ kf ∈ l, round6 kf.beat = kf.beat)
    (hbfix : round6 b = b)
    (hmiss : ∀ kf ∈ l, kf.beat ≠ b)
    (hlen : 2 ≤ l.length)
    (hlo : (l.getD 0 default).beat ≤ b)
    (hhi : b < (l.getD (l.length - 1) default).beat) :
    ∃ lo f0 f1, lo + 1 < l.length ∧
      f0 = l.getD lo default ∧ f1 = l.getD (lo + 1) default ∧
      f0.beat ≤ b ∧ b < f1.beat ∧
      find_frame b l = some
        { beat := b,
          dancers := fun did =>
            { x := (f0.dancers did).x + ((f1.dancers did).x - (f0.dancers did).x) *
                ((b - f0.beat) / (f1.beat - f0.beat)),
              y := (f0.dancers did).y + ((f1.dancers did).y - (f0.dancers did).y) *
                ((b - f0.beat) / (f1.beat - f0.beat)),
              facing := (f0.dancers did).facing +
                (pymod ((f1.dancers did).facing - (f0.dancers did).facing + 180) 360 - 180) *
                ((b - f0.beat) / (f1.beat - f0.beat)) },
          hands := f0.hands } := by
  have hbil : build_index_lookup l (round6 b) = none := by
    apply build_index_lookup_miss
    intro kf hkf
    rw [hfix kf hkf, hbfix]
    exact hmiss kf hkf
  obtain ⟨h1, h2, h3, h4, h5⟩ := bsearch_bracket l b l.length 0 (l.length - 1)
    (by omega) (by omega) (by omega) hlo hhi
  rw [h1] at h5
  refine ⟨(bsearch l b 0 (l.length - 1)).1, l.getD (bsearch l b 0 (l.length - 1)).1 default,
    l.getD ((bsearch l b 0 (l.length - 1)).1 + 1) default, by omega, rfl, rfl, h4, h5, ?_⟩
  rcases l with _ | ⟨x, rest⟩
  · exact absurd hlen (by norm_num)
  · rw [find_frame.eq_def, hbil]
    have hne : ¬ (bsearch (x :: rest) b 0 ((x :: rest).length - 1)).1 =
        (bsearch (x :: rest) b 0 ((x :: rest).length - 1)).2 := by omega
    have hdt : ¬ ((x :: rest).getD ((bsearch (x :: rest) b 0 ((x :: rest).length - 1)).2)
        default).beat -
        ((x :: rest).getD ((bsearch (x :: rest) b 0 ((x :: rest).length - 1)).1)
        default).beat ≤ 0 := by
      rw [h1]
      push_neg
      linarith
    simp only [hne, if_false, reduceIte, hdt]
    rw [h1]

lemma overlay_fold_preserve (beat : ℝ) (did : DancerID) :
    ∀ (ls : List (List Keyframe × Finset DancerID))
      (acc : (DancerID → DancerState) × List HandConnection),
      (∀ p ∈ ls, did ∉ p.2) →
      (ls.foldl (overlay_step beat) acc).1 did = acc.1 did := by
  intro ls
  induction ls with
  | nil => intro acc _; rfl
  | cons p ls ih =>
    intro acc h
    rw [List.foldl_cons]
    rw [ih (overlay_step beat acc p) (fun q hq => h q (List.mem_cons_of_mem _ hq))]
    rcases hf : find_frame beat p.1 with _ | frame
    · simp only [overlay_step, hf]
    · simp only [overlay_step, hf]
      rw [if_neg (h p (List.mem_cons_self _ _))]

lemma merge_overlay_nonauth (lists : List (List Keyframe × Finset DancerID))
    (beat : ℝ) (base : Keyframe) (did : DancerID)
    (h : ∀ p ∈ lists, did ∉ p.2) :
    (merge_overlay lists beat base).dancers did = base.dancers did := by
  simp only [merge_overlay]
  rw [overlay_fold_preserve beat did lists _ h]

lemma merge_overlay_auth (beat : ℝ) (base : Keyframe)
    (l1 l2 : List (List Keyframe × Finset DancerID))
    (p : List Keyframe × Finset DancerID) (did : DancerID) (frame : Keyframe)
    (hdid : did ∈ p.2) (hl2 : ∀ q ∈ l2, did ∉ q.2)
    (hf : find_frame beat p.1 = some frame) :
    (merge_overlay (l1 ++ p :: l2) beat base).dancers did = frame.dancers did := by
  simp only [merge_overlay]
  rw [List.foldl_append, List.foldl_cons]
  rw [overlay_fold_preserve beat did l2 _ hl2]
  simp only [overlay_step, hf]
  rw [if_pos hdid]

lemma merge_member (p0 p1 : List Keyframe × Finset DancerID)
    (rest : List (List Keyframe × Finset DancerID)) (kf : Keyframe)
    (h : kf ∈ merge_keyframe_lists (p0 :: p1 :: rest)) :
    ∃ b base, round6 b = b ∧ find_frame b p0.1 = some base ∧
      kf = merge_overlay (p0 :: p1 :: rest) b base := by
  simp only [merge_keyframe_lists] at h
  obtain ⟨b, hbmem, hsome⟩ := List.mem_filterMap.mp h
  obtain ⟨base, hfb, hkf⟩ := Option.map_eq_some'.mp hsome
  refine ⟨b, base, ?_, hfb, hkf.symm⟩
  have hb1 : b ∈ ((p0 :: p1 :: rest).flatMap
      (fun p => p.1.map (fun kf => round6 kf.beat))).dedup :=
    List.mem_mergeSort.mp hbmem
  have hb2 : b ∈ (p0 :: p1 :: rest).flatMap
      (fun p => p.1.map (fun kf => round6 kf.beat)) :=
    List.mem_dedup.mp hb1
  obtain ⟨p, _, hbp⟩ := List.mem_flatMap.mp hb2
  obtain ⟨kf', _, hkf'⟩ := List.mem_map.mp hbp
  rw [← hkf']
  exact round6_idem kf'.beat

/-- C2: merging keyframe lists is the identity on a single input; on two or
more inputs with pairwise-disjoint authoritative sets, every merged frame is
the first input's frame at that beat overlaid with each input's frame for its
own authoritative dancers: a dancer authoritative in no input keeps the first
input's pose, a dancer authoritative in input k takes input k's pose at that
beat, where the per-input frame at a beat (find_frame) is the input's own
keyframe exactly when the beat is on the input's grid, and otherwise is
linearly interpolated between the two frames bracketing the beat, with
shortest-arc facing interpolation and hands from the earlier frame. -/
theorem C2_merge_correctness :
    (∀ p : List Keyframe × Finset DancerID, merge_keyframe_lists [p] = p.1) ∧
    (∀ (p0 p1 : List Keyframe × Finset DancerID)
       (rest : List (List Keyframe × Finset DancerID)) (kf : Keyframe),
      List.Pairwise (fun p q => ∀ d, d ∈ p.2 → d ∉ q.2) (p0 :: p1 :: rest) →
      kf ∈ merge_keyframe_lists (p0 :: p1 :: rest) →
      round6 kf.beat = kf.beat ∧
      ∃ base, find_frame kf.beat p0.1 = some base ∧
        (∀ did, (∀ p ∈ p0 :: p1 :: rest, did ∉ p.2) →
          kf.dancers did = base.dancers did) ∧
        (∀ p ∈ p0 :: p1 :: rest, ∀ did ∈ p.2, ∀ frame,
          find_frame kf.beat p.1 = some frame →
          kf.dancers did = frame.dancers did)) ∧
    (∀ (l : List Keyframe) (x : Keyframe),
      List.Pairwise (fun a b : Keyframe => a.beat < b.beat) l →
      (∀ kf ∈ l, round6 kf.beat = kf.beat) →
      x ∈ l → find_frame x.beat l = some x) ∧
    (∀ (l : List Keyframe) (b : ℝ),
      (∀ kf ∈ l, round6 kf.beat = kf.beat) →
      round6 b = b →
      (∀ kf ∈ l, kf.beat ≠ b) →
      2 ≤ l.length →
      (l.getD 0 default).beat ≤ b →
      b < (l.getD (l.length - 1) default).beat →
      ∃ lo f0 f1, lo + 1 < l.length ∧
        f0 = l.getD lo default ∧ f1 = l.getD (lo + 1) default ∧
        f0.beat ≤ b ∧ b < f1.beat ∧
        find_frame b l = some
          { beat := b,
            dancers := fun did =>
              { x := (f0.dancers did).x + ((f1.dancers did).x - (f0.dancers did).x) *
                  ((b - f0.beat) / (f1.beat - f0.beat)),
                y := (f0.dancers did).y + ((f1.dancers did).y - (f0.dancers did).y) *
                  ((b - f0.beat) / (f1.beat - f0.beat)),
                facing := (f0.dancers did).facing +
                  (pymod ((f1.dancers did).facing - (f0.dancers did).facing + 180) 360 - 180) *
                  ((b - f0.beat) / (f1.beat - f0.beat)) },
            hands := f0.hands }) := by
  refine ⟨fun p => rfl, ?_,
    fun l x hpw hfix hx => find_frame_hit l hpw hfix x hx, find_frame_interp⟩
  intro p0 p1 rest kf hpw hmem
  obtain ⟨b, base, hbfix, hfb, hkf⟩ := merge_member p0 p1 rest kf hmem
  subst hkf
  have hbeat : (merge_overlay (p0 :: p1 :: rest) b base).beat = b := rfl
  rw [hbeat]
  refine ⟨hbfix, base, hfb, ?_, ?_⟩
  · intro did hd
    exact merge_overlay_nonauth (p0 :: p1 :: rest) b base did hd
  · intro p hp did hdid frame hfp
    obtain ⟨l1, l2, hsplit⟩ := List.append_of_mem hp
    have hl2 : ∀ q ∈ l2, did ∉ q.2 := by
      rw [hsplit] at hpw
      obtain ⟨-, hp2, -⟩ := List.pairwise_append.mp hpw
      intro q hq
      exact (List.pairwise_cons.mp hp2).1 q hq did hdid
    rw [hsplit]
    exact merge_overlay_auth b base l1 l2 p did frame hdid hl2 hfp

def c2kf00 : Keyframe := { beat := 0, dancers := fun _ => { x := 0, y := 0, facing := 0 } }

def c2kf01 : Keyframe := { beat := 1, dancers := fun _ => { x := 1, y := 0, facing := 90 } }

def c2kf10 : Keyframe := { beat := 0, dancers := fun _ => { x := 5, y := 5, facing := 180 } }

def c2auth0 : Finset DancerID := {DancerID.UP_LARK, DancerID.UP_ROBIN}

def c2auth1 : Finset DancerID := {DancerID.DOWN_LARK, DancerID.DOWN_ROBIN}

def c2lists : List (List Keyframe × Finset DancerID) :=
  [([c2kf00], c2auth0), ([c2kf10], c2auth1)]

def c2pair : List Keyframe := [c2kf00, c2kf01]

lemma c2_ff00 : find_frame (0 : ℝ) [c2kf00] = some c2kf00 :=
  find_frame_hit [c2kf00] (List.pairwise_singleton _ _)
    (fun kf hkf => by
      rw [List.mem_singleton] at hkf
      subst hkf
      exact round6_zero)
    c2kf00 (List.mem_singleton.mpr rfl)

lemma c2_ff10 : find_frame (0 : ℝ) [c2kf10] = some c2kf10 :=
  find_frame_hit [c2kf10] (List.pairwise_singleton _ _)
    (fun kf hkf => by
      rw [List.mem_singleton] at hkf
      subst hkf
      exact round6_zero)
    c2kf10 (List.mem_singleton.mpr rfl)

lemma c2_merged_eq : merge_keyframe_lists c2lists = [merge_overlay c2lists 0 c2kf00] := by
  simp only [c2lists, merge_keyframe_lists]
  have h1 : ([([c2kf00], c2auth0), ([c2kf10], c2auth1)].flatMap
      (fun p => p.1.map (fun kf => round6 kf.beat))) = [round6 (0 : ℝ), round6 (0 : ℝ)] := rfl
  rw [h1, round6_zero]
  have h2 : ([(0 : ℝ), 0].dedup) = [0] := by
    rw [List.dedup_cons_of_mem (List.mem_singleton.mpr rfl),
      List.dedup_cons_of_not_mem (List.not_mem_nil 0), List.dedup_nil]
  rw [h2]
  have h3 : ([(0 : ℝ)].mergeSort (fun a b => decide (a ≤ b))) = [0] :=
    List.mergeSort_singleton 0
  rw [h3]
  rw [List.filterMap_cons, List.filterMap_nil]
  have h4 : find_frame (0 : ℝ) ([c2kf00], c2auth0).1 = some c2kf00 := c2_ff00
  rw [h4]
  rfl

theorem C2_merge_correctness_witness :
    merge_keyframe_lists [(c2pair, c2auth0)] = c2pair ∧
    (merge_overlay c2lists 0 c2kf00) ∈ merge_keyframe_lists c2lists ∧
    (merge_overlay c2lists 0 c2kf00).dancers DancerID.DOWN_LARK =
      c2kf10.dancers DancerID.DOWN_LARK ∧
    (merge_overlay c2lists 0 c2kf00).dancers DancerID.UP_LARK =
      c2kf00.dancers DancerID.UP_LARK ∧
    find_frame c2kf01.beat c2pair = some c2kf01 ∧
    (∃ lo f0 f1, lo + 1 < c2pair.length ∧
      f0 = c2pair.getD lo default ∧ f1 = c2pair.getD (lo + 1) default ∧
      f0.beat ≤ (1/2 : ℝ) ∧ (1/2 : ℝ) < f1.beat ∧
      find_frame (1/2 : ℝ) c2pair = some
        { beat := (1/2 : ℝ),
          dancers := fun did =>
            { x := (f0.dancers did).x + ((f1.dancers did).x - (f0.dancers did).x) *
                (((1/2 : ℝ) - f0.beat) / (f1.beat - f0.beat)),
              y := (f0.dancers did).y + ((f1.dancers did).y - (f0.dancers did).y) *
                (((1/2 : ℝ) - f0.beat) / (f1.beat - f0.beat)),
              facing := (f0.dancers did).facing +
                (pymod ((f1.dancers did).facing - (f0.dancers did).facing + 180) 360 - 180) *
                (((1/2 : ℝ) - f0.beat) / (f1.beat - f0.beat)) },
          hands := f0.hands }) := by
  obtain ⟨T1, T2, T3, T4⟩ := C2_merge_correctness
  have hmem : merge_overlay c2lists 0 c2kf00 ∈ merge_keyframe_lists c2lists := by
    rw [c2_merged_eq]
    exact List.mem_singleton.mpr rfl
  have hpair : List.Pairwise (fun p q : List Keyframe × Finset DancerID =>
      ∀ d, d ∈ p.2 → d ∉ q.2) [([c2kf00], c2auth0), ([c2kf10], c2auth1)] := by
    refine List.Pairwise.cons ?_ (List.pairwise_singleton _ _)
    intro q hq d hd
    rw [List.mem_singleton] at hq
    subst hq
    revert hd
    cases d <;> decide
  obtain ⟨hfixb, base, hfbase, hnon, hauth⟩ :=
    T2 ([c2kf00], c2auth0) ([c2kf10], c2auth1) [] (merge_overlay c2lists 0 c2kf00) hpair hmem
  have hdown : (merge_overlay c2lists 0 c2kf00).dancers DancerID.DOWN_LARK =
      c2kf10.dancers DancerID.DOWN_LARK := by
    refine hauth ([c2kf10], c2auth1) ?_ DancerID.DOWN_LARK (by decide) c2kf10 c2_ff10
    exact List.mem_cons_of_mem _ (List.mem_singleton.mpr rfl)
  have hup : (merge_overlay c2lists 0 c2kf00).dancers DancerID.UP_LARK =
      c2kf00.dancers DancerID.UP_LARK := by
    refine hauth ([c2kf00], c2auth0) ?_ DancerID.UP_LARK (by decide) c2kf00 c2_ff00
    exact List.mem_cons_self _ _
  have hpwpair : List.Pairwise (fun a b : Keyframe => a.beat < b.beat) c2pair := by
    refine List.Pairwise.cons ?_ (List.pairwise_singleton _ _)
    intro y hy
    rw [List.mem_singleton] at hy
    subst hy
    show (0 : ℝ) < 1
    norm_num
  have hfixpair : ∀ kf ∈ c2pair, round6 kf.beat = kf.beat := by
    intro kf hkf
    rcases List.mem_cons.mp hkf with rfl | hkf'
    · exact round6_zero
    · rw [List.mem_singleton] at hkf'
      subst hkf'
      exact round6_fix 1000000 (by norm_num [c2kf01])
  refine ⟨T1 (c2pair, c2auth0), hmem, hdown, hup, ?_, ?_⟩
  · exact T3 c2pair c2kf01 hpwpair hfixpair
      (List.mem_cons_of_mem _ (List.mem_singleton.mpr rfl))
  · refine T4 c2pair (1/2 : ℝ) hfixpair (round6_fix 500000 (by norm_num)) ?_ ?_ ?_ ?_
    · intro kf hkf
      rcases List.mem_cons.mp hkf with rfl | hkf'
      · show (0 : ℝ) ≠ 1/2
        norm_num
      · rw [List.mem_singleton] at hkf'
        subst hkf'
        show (1 : ℝ) ≠ 1/2
        norm_num
    · exact le_refl 2
    · show (0 : ℝ) ≤ 1/2
      norm_num
    · show (1/2 : ℝ) < 1
      norm_num

